import Mathlib
/-
Verification of the HdyLeaflet adaptive container (src/hdy-leaflet.c).
The leaflet state is embedded shallowly: the C private struct HdyLeafletPrivate
becomes the structure HdyLeaflet below, GList nodes holding HdyLeafletChildInfo
pointers become lists of HdyLeafletChildInfo values whose id field models the
pointer identity, and every mutation of a child struct is applied to both the
children list and the children_reversed list, exactly as a write through a
shared pointer would be.  gdouble is modelled by the exact rationals, gint by
Int with the C truncating division Int.tdiv, guint by Nat.  External GTK
collaborators (widget mapping, text direction, the enable-animations setting,
the frame clock and GtkProgressTracker, which live outside this repository)
appear as explicit fields and event parameters; the progress tracker is
reduced to its observable state before/during/after, which is all the leaflet
reads from it.  Outbound calls (queue_draw, queue_resize, notify, cairo and
GdkWindow operations, the swipe tracker confirm call) have no effect on the
modelled state and are dropped, with the exception of the bin window move
request flag which the code reads back.
-/

inductive GtkOrientation where
  | horizontal
  | vertical
deriving DecidableEq

inductive GtkTextDirection where
  | ltr
  | rtl
deriving DecidableEq

inductive HdyLeafletTransitionType where
  | none
  | slide
  | over
  | under
deriving DecidableEq

inductive GtkPanDirection where
  | left
  | right
  | up
  | down
deriving DecidableEq

inductive HdyNavigationDirection where
  | back
  | forward
deriving DecidableEq

/-- Observable state of a GtkProgressTracker: the leaflet only ever asks
gtk_progress_tracker_get_state, so the external tracker is modelled by that
state alone. -/
inductive GtkProgressState where
  | before
  | during
  | after
deriving DecidableEq

structure GtkAllocation where
  x : Int
  y : Int
  width : Int
  height : Int
deriving DecidableEq

structure GtkRequisition where
  width : Int
  height : Int
deriving DecidableEq

/-- Model of struct _HdyLeafletChildInfo together with the state of the child
widget it points to.  The id field models the identity of the heap-allocated
child_info (and of its widget, which is in bijection with it).  The fields
gtkVisible, childVisible, widgetExpandH, widgetExpandV, widgetMin and
widgetNat belong to the GTK widget (gtk_widget_get_visible,
gtk_widget_get_child_visible, gtk_widget_compute_expand,
gtk_widget_get_preferred_size); hasWidget models widget != NULL.  The name
field is omitted: no modelled operation reads it. -/
structure HdyLeafletChildInfo where
  id : Nat
  hasWidget : Bool
  gtkVisible : Bool
  childVisible : Bool
  widgetExpandH : Bool
  widgetExpandV : Bool
  widgetMin : GtkRequisition
  widgetNat : GtkRequisition
  allowVisible : Bool
  alloc : GtkAllocation
  min : GtkRequisition
  nat : GtkRequisition
  visible : Bool
deriving DecidableEq

/-- The mode_transition member of HdyLeafletPrivate.  tick_id != 0 is modelled
by tickScheduled; the two cairo surfaces are modelled by their presence
flags. -/
structure ModeTransition where
  duration : Nat
  currentPos : ℚ
  sourcePos : ℚ
  targetPos : ℚ
  hasStartSurface : Bool
  startSurfaceAllocation : GtkAllocation
  startDistance : ℚ
  startProgress : ℚ
  hasEndSurface : Bool
  endSurfaceAllocation : GtkAllocation
  endSurfaceClip : GtkAllocation
  endDistance : ℚ
  endProgress : ℚ
  tickScheduled : Bool
  tracker : GtkProgressState
deriving DecidableEq

/-- The child_transition member of HdyLeafletPrivate. -/
structure ChildTransition where
  duration : Nat
  progress : ℚ
  startProgress : ℚ
  endProgress : ℚ
  isGestureActive : Bool
  isCancelled : Bool
  hasLastVisibleSurface : Bool
  lastVisibleSurfaceAllocation : GtkAllocation
  tickScheduled : Bool
  tracker : GtkProgressState
  firstFrameSkipped : Bool
  lastVisibleWidgetWidth : Int
  lastVisibleWidgetHeight : Int
  interpolateSize : Bool
  canSwipeBack : Bool
  canSwipeForward : Bool
  activeType : HdyLeafletTransitionType
  activeDirection : GtkPanDirection
deriving DecidableEq

/-- Model of HdyLeafletPrivate plus the widget-level environment the code
reads: mapped, realized, visibility of the leaflet itself, text direction and
the global enable-animations setting.  visibleChild and lastVisibleChild hold
the id of the pointed-to child_info.  nextId supplies fresh ids for
hdy_leaflet_add, modelling the freshness of g_new0 results. -/
structure HdyLeaflet where
  children : List HdyLeafletChildInfo
  childrenReversed : List HdyLeafletChildInfo
  visibleChild : Option Nat
  lastVisibleChild : Option Nat
  folded : Bool
  hhomogeneousFolded : Bool
  vhomogeneousFolded : Bool
  hhomogeneousUnfolded : Bool
  vhomogeneousUnfolded : Bool
  orientation : GtkOrientation
  moveBinWindowRequest : Bool
  transitionType : HdyLeafletTransitionType
  modeTransition : ModeTransition
  childTransition : ChildTransition
  mapped : Bool
  realized : Bool
  widgetVisible : Bool
  textDirection : GtkTextDirection
  enableAnimations : Bool
  nextId : Nat
deriving DecidableEq

/-- C cast of a gdouble to gint: truncation toward zero. -/
def truncToInt (q : ℚ) : Int := Int.tdiv q.num (q.den : Int)

/-- Modelled from the spec: hdy_lerp lives in hdy-animation.c, which is not
under src/.  It interpolates from b (at t = 0) to a (at t = 1), which is the
direction in which every call site in hdy-leaflet.c uses it; no claim depends
on the exact formula. -/
def hdy_lerp (a b t : ℚ) : ℚ := a + (b - a) * (1 - t)

/-- Modelled from the spec: gtk_progress_tracker_start begins time-based
progress tracking, so the observable state is no longer after.  The leaflet
only starts the tracker with a nonzero duration and zero delay. -/
def gtk_progress_tracker_start (_t : GtkProgressState) : GtkProgressState := .during

/-- Modelled from the spec: gtk_progress_tracker_finish jumps the tracker to
its final state. -/
def gtk_progress_tracker_finish (_t : GtkProgressState) : GtkProgressState := .after

/-- Modelled from the spec: advancing the frame clock either keeps the
animation running or ends it; which one happens depends on the frame time,
an input of the environment. -/
def gtk_progress_tracker_advance_frame (_t : GtkProgressState) (ends : Bool) : GtkProgressState :=
  if ends then .after else .during

/-- Apply a mutation to every child struct in place; a function that touches
only the children matching some id models a write through that pointer, which
is visible through both lists. -/
def mapChildren (s : HdyLeaflet) (f : HdyLeafletChildInfo → HdyLeafletChildInfo) : HdyLeaflet :=
  { s with children := s.children.map f,
           childrenReversed := s.childrenReversed.map f }

/-- gtk_widget_set_child_visible on the widget of the child with the given
id. -/
def gtk_widget_set_child_visible (s : HdyLeaflet) (wid : Nat) (v : Bool) : HdyLeaflet :=
  mapChildren s (fun c => if c.id = wid then { c with childVisible := v } else c)

def find_child_info_for_widget (s : HdyLeaflet) (wid : Nat) : Option HdyLeafletChildInfo :=
  s.children.find? (fun c => c.id == wid)

def get_directed_children (s : HdyLeaflet) : List HdyLeafletChildInfo :=
  if s.orientation = .horizontal ∧ s.textDirection = .rtl then
    s.childrenReversed
  else
    s.children

/-- Write back the structs mutated through a traversal: each child keeps its
identity and picks up the updated value if the traversal produced one. -/
def applyChildUpdates (upd : List HdyLeafletChildInfo) (l : List HdyLeafletChildInfo) :
    List HdyLeafletChildInfo :=
  l.map (fun c => (upd.find? (fun u => u.id == c.id)).getD c)

def commitDirected (s : HdyLeaflet) (upd : List HdyLeafletChildInfo) : HdyLeaflet :=
  { s with children := applyChildUpdates upd s.children,
           childrenReversed := applyChildUpdates upd s.childrenReversed }

/-- move_resize_bin_window: the window operations are outbound; the code
itself only resets move_bin_window_request, and only when the bin window
exists, which is the case exactly when the widget is realized. -/
def move_resize_bin_window (s : HdyLeaflet) : HdyLeaflet :=
  if s.realized then { s with moveBinWindowRequest := false } else s

def hdy_leaflet_child_progress_updated (s : HdyLeaflet) : HdyLeaflet :=
  let s := move_resize_bin_window s
  if ¬ s.childTransition.isGestureActive ∧ s.childTransition.tracker = .after then
    let s := { s with childTransition.hasLastVisibleSurface := false }
    if s.childTransition.isCancelled then
      match s.lastVisibleChild with
      | some lv =>
        let s :=
          if s.folded then
            let s := gtk_widget_set_child_visible s lv true
            match s.visibleChild with
            | some v => gtk_widget_set_child_visible s v false
            | none => s
          else s
        { s with visibleChild := s.lastVisibleChild, lastVisibleChild := none }
      | none => s
    else
      match s.lastVisibleChild with
      | some lv =>
        let s := if s.folded then gtk_widget_set_child_visible s lv false else s
        { s with lastVisibleChild := none }
      | none => s
  else s

def hdy_leaflet_schedule_child_ticks (s : HdyLeaflet) : HdyLeaflet :=
  if s.childTransition.tickScheduled = false then
    { s with childTransition.tickScheduled := true }
  else s

def hdy_leaflet_unschedule_child_ticks (s : HdyLeaflet) : HdyLeaflet :=
  if s.childTransition.tickScheduled = true then
    { s with childTransition.tickScheduled := false }
  else s

/-- hdy_leaflet_child_transition_cb: the tick callback of the child
transition.  The eased progress of the external tracker and whether the frame
ends the animation are inputs of the environment.  Returns the new state and
whether the callback stays installed (G_SOURCE_CONTINUE). -/
def hdy_leaflet_child_transition_cb (s : HdyLeaflet) (ease : ℚ) (ends : Bool) :
    HdyLeaflet × Bool :=
  let s :=
    if s.childTransition.firstFrameSkipped then
      let s := { s with childTransition.tracker :=
                   gtk_progress_tracker_advance_frame s.childTransition.tracker ends }
      { s with childTransition.progress :=
                 hdy_lerp s.childTransition.endProgress s.childTransition.startProgress ease }
    else
      { s with childTransition.firstFrameSkipped := true }
  let s :=
    if ¬ s.mapped then
      { s with childTransition.tracker := gtk_progress_tracker_finish s.childTransition.tracker }
    else s
  let s := hdy_leaflet_child_progress_updated s
  if s.childTransition.tracker = .after then
    ({ s with childTransition.tickScheduled := false }, false)
  else
    (s, true)

def hdy_leaflet_stop_child_transition (s : HdyLeaflet) : HdyLeaflet :=
  let s := hdy_leaflet_unschedule_child_ticks s
  let s := { s with childTransition.activeType := .none }
  let s := { s with childTransition.tracker :=
               gtk_progress_tracker_finish s.childTransition.tracker }
  let s := { s with childTransition.hasLastVisibleSurface := false }
  let s :=
    match s.lastVisibleChild with
    | some lv =>
      let s := gtk_widget_set_child_visible s lv false
      { s with lastVisibleChild := none }
    | none => s
  { s with moveBinWindowRequest := true }

def hdy_leaflet_start_child_transition (s : HdyLeaflet)
    (transitionType : HdyLeafletTransitionType) (transitionDuration : Nat)
    (transitionDirection : GtkPanDirection) : HdyLeaflet :=
  let s :=
    if s.mapped ∧ (s.enableAnimations ∨ s.childTransition.isGestureActive) ∧
        transitionType ≠ .none ∧ transitionDuration ≠ 0 ∧
        s.lastVisibleChild ≠ none ∧
        s.modeTransition.tickScheduled = false then
      let s := { s with childTransition.activeType := transitionType,
                        childTransition.activeDirection := transitionDirection,
                        childTransition.firstFrameSkipped := false,
                        childTransition.startProgress := 0,
                        childTransition.endProgress := 1,
                        childTransition.progress := 0,
                        childTransition.isCancelled := false }
      if ¬ s.childTransition.isGestureActive then
        let s := hdy_leaflet_schedule_child_ticks s
        { s with childTransition.tracker :=
                   gtk_progress_tracker_start s.childTransition.tracker }
      else s
    else
      let s := hdy_leaflet_unschedule_child_ticks s
      let s := { s with childTransition.activeType := .none }
      { s with childTransition.tracker :=
                 gtk_progress_tracker_finish s.childTransition.tracker }
  hdy_leaflet_child_progress_updated s

def is_direction_dependent_child_transition (t : HdyLeafletTransitionType) : Bool :=
  match t with
  | .slide => true
  | .over => true
  | .under => true
  | .none => false

def get_pan_direction (s : HdyLeaflet) (newChildFirst : Bool) : GtkPanDirection :=
  match s.orientation with
  | .horizontal =>
    if s.textDirection = .rtl then
      if newChildFirst then .left else .right
    else
      if newChildFirst then .right else .left
  | .vertical =>
    if newChildFirst then .down else .up

/-- The loop in set_visible_child_info that determines whether the new child
comes before the old one in the children list. -/
def newFirstScan (l : List HdyLeafletChildInfo) (newId lastId : Option Nat) : Bool :=
  match l with
  | [] => false
  | c :: rest =>
    if newId = some c.id then true
    else if lastId = some c.id then false
    else newFirstScan rest newId lastId

/-- The default pick of set_visible_child_info: when no child is given, the
first visible child is chosen. -/
def svciPickDefault (s : HdyLeaflet) (newVisible0 : Option Nat) : Option Nat :=
  match newVisible0 with
  | some i => some i
  | none => (s.children.find? (fun c => c.gtkVisible)).map (fun c => c.id)

/-- set_visible_child_info, step one: hide the previous last visible child. -/
def svciHideLastVisible (s : HdyLeaflet) : HdyLeaflet :=
  match s.lastVisibleChild with
  | some lv => gtk_widget_set_child_visible s lv false
  | none => s

/-- set_visible_child_info, step two: when the leaflet itself is visible the
current visible child becomes the last visible child and its allocated size is
recorded, otherwise it is simply hidden. -/
def svciRecordLastVisible (s : HdyLeaflet) : HdyLeaflet :=
  match s.visibleChild with
  | some v =>
    match find_child_info_for_widget s v with
    | some c =>
      if c.hasWidget then
        if s.widgetVisible then
          { s with lastVisibleChild := some v,
                   childTransition.lastVisibleWidgetWidth := c.alloc.width,
                   childTransition.lastVisibleWidgetHeight := c.alloc.height }
        else
          gtk_widget_set_child_visible s v false
      else s
    | none => s
  | none => s

/-- set_visible_child_info, step three: make the new visible child
child-visible. -/
def svciShowNewVisible (s : HdyLeaflet) (newVisible : Option Nat) : HdyLeaflet :=
  match newVisible with
  | some n => gtk_widget_set_child_visible s n true
  | none => s

/-- set_visible_child_info, final step: when folded, start the child
transition, downgrading a direction-dependent transition to none when either
end of the transition is missing. -/
def svciStartTransition (s : HdyLeaflet) (newVisible : Option Nat)
    (transitionType : HdyLeafletTransitionType) (transitionDuration : Nat) : HdyLeaflet :=
  let degenerate := newVisible = none ∨ s.lastVisibleChild = none
  let transitionDirection :=
    if ¬ degenerate ∧ is_direction_dependent_child_transition transitionType then
      get_pan_direction s (newFirstScan s.children newVisible s.lastVisibleChild)
    else
      GtkPanDirection.left
  let transitionType :=
    if degenerate ∧ is_direction_dependent_child_transition transitionType then
      HdyLeafletTransitionType.none
    else transitionType
  if s.folded then
    hdy_leaflet_start_child_transition s transitionType transitionDuration transitionDirection
  else s

def set_visible_child_info (s : HdyLeaflet) (newVisible0 : Option Nat)
    (transitionType : HdyLeafletTransitionType) (transitionDuration : Nat) : HdyLeaflet :=
  let newVisible := svciPickDefault s newVisible0
  if newVisible = s.visibleChild then s
  else
    let s1 := svciHideLastVisible s
    let s2 := { s1 with lastVisibleChild := none,
                        childTransition.hasLastVisibleSurface := false }
    let s3 := svciRecordLastVisible s2
    let s4 := { s3 with visibleChild := newVisible }
    let s5 := svciShowNewVisible s4 newVisible
    svciStartTransition s5 newVisible transitionType transitionDuration

def hdy_leaflet_set_position (s : HdyLeaflet) (pos : ℚ) : HdyLeaflet :=
  let s := { s with modeTransition.currentPos := pos }
  let newVisible : Bool :=
    decide (s.modeTransition.currentPos ≠ 0) || decide (s.modeTransition.targetPos ≠ 0)
  match s.visibleChild with
  | some v =>
    match find_child_info_for_widget s v with
    | some c =>
      if newVisible ≠ c.childVisible then gtk_widget_set_child_visible s v newVisible
      else s
    | none => s
  | none => s

def hdy_leaflet_mode_progress_updated (s : HdyLeaflet) : HdyLeaflet :=
  if s.modeTransition.tracker = .after then
    { s with modeTransition.hasStartSurface := false,
             modeTransition.hasEndSurface := false }
  else s

def hdy_leaflet_mode_transition_cb (s : HdyLeaflet) (ease : ℚ) (ends : Bool) :
    HdyLeaflet × Bool :=
  let s := { s with modeTransition.tracker :=
               gtk_progress_tracker_advance_frame s.modeTransition.tracker ends }
  let s := hdy_leaflet_set_position s
             (s.modeTransition.sourcePos +
              ease * (s.modeTransition.targetPos - s.modeTransition.sourcePos))
  let s := hdy_leaflet_mode_progress_updated s
  if s.modeTransition.tracker = .after then
    ({ s with modeTransition.tickScheduled := false }, false)
  else
    (s, true)

def hdy_leaflet_start_mode_transition (s : HdyLeaflet) (target : ℚ) : HdyLeaflet :=
  if s.modeTransition.targetPos = target then s
  else
    let s := { s with modeTransition.targetPos := target }
    let s := hdy_leaflet_stop_child_transition s
    if s.mapped ∧ s.modeTransition.duration ≠ 0 ∧
        s.transitionType ≠ .none ∧ s.enableAnimations then
      let s := { s with modeTransition.sourcePos := s.modeTransition.currentPos }
      let s :=
        if s.modeTransition.tickScheduled = false then
          { s with modeTransition.tickScheduled := true }
        else s
      { s with modeTransition.tracker := gtk_progress_tracker_start s.modeTransition.tracker }
    else
      hdy_leaflet_set_position s target

def hdy_leaflet_get_folded (s : HdyLeaflet) : Bool := s.folded

def hdy_leaflet_set_folded (s : HdyLeaflet) (folded : Bool) : HdyLeaflet :=
  if s.folded = folded then s
  else
    let s := { s with folded := folded }
    if folded then hdy_leaflet_start_mode_transition s 0
    else hdy_leaflet_start_mode_transition s 1

def hdy_leaflet_get_child_transition_running (s : HdyLeaflet) : Bool :=
  s.childTransition.tickScheduled || s.childTransition.isGestureActive

def hdy_leaflet_set_transition_type (s : HdyLeaflet) (t : HdyLeafletTransitionType) :
    HdyLeaflet :=
  if s.transitionType = t then s else { s with transitionType := t }

def hdy_leaflet_set_mode_transition_duration (s : HdyLeaflet) (d : Nat) : HdyLeaflet :=
  if s.modeTransition.duration = d then s else { s with modeTransition.duration := d }

def hdy_leaflet_set_child_transition_duration (s : HdyLeaflet) (d : Nat) : HdyLeaflet :=
  if s.childTransition.duration = d then s else { s with childTransition.duration := d }

def hdy_leaflet_set_can_swipe_back (s : HdyLeaflet) (b : Bool) : HdyLeaflet :=
  if s.childTransition.canSwipeBack = b then s
  else { s with childTransition.canSwipeBack := b }

def hdy_leaflet_set_can_swipe_forward (s : HdyLeaflet) (b : Bool) : HdyLeaflet :=
  if s.childTransition.canSwipeForward = b then s
  else { s with childTransition.canSwipeForward := b }

/-- The do-while loop of find_swipeable_child: after stepping to the next
node, a null node breaks out of the loop returning whatever was last assigned
to child, otherwise child is assigned and the loop continues while the
assigned child does not allow being visible. -/
def findSwipeableLoop : List HdyLeafletChildInfo → Option HdyLeafletChildInfo →
    Option HdyLeafletChildInfo
  | [], child => child
  | c :: rest, _ => if c.allowVisible then some c else findSwipeableLoop rest (some c)

def find_swipeable_child (s : HdyLeaflet) (direction : HdyNavigationDirection) :
    Option HdyLeafletChildInfo :=
  match s.visibleChild with
  | none => none
  | some vid =>
    match s.children.findIdx? (fun c => c.id == vid) with
    | none => none
    | some i =>
      let scan :=
        match direction with
        | .back => (s.children.take i).reverse
        | .forward => s.children.drop (i + 1)
      findSwipeableLoop scan none

def can_swipe_in_direction (s : HdyLeaflet) (direction : HdyNavigationDirection) : Bool :=
  match direction with
  | .back => s.childTransition.canSwipeBack
  | .forward => s.childTransition.canSwipeForward

def hdy_leaflet_navigate (s : HdyLeaflet) (direction : HdyNavigationDirection) :
    Bool × HdyLeaflet :=
  if ¬ can_swipe_in_direction s direction then (false, s)
  else
    match find_swipeable_child s direction with
    | none => (false, s)
    | some child =>
      (true, set_visible_child_info s (some child.id) s.transitionType s.childTransition.duration)

def hdy_leaflet_set_visible_child (s : HdyLeaflet) (wid : Nat) : HdyLeaflet :=
  match find_child_info_for_widget s wid with
  | some child => set_visible_child_info s (some child.id) s.transitionType s.childTransition.duration
  | none => s

def hdy_leaflet_begin_swipe (s : HdyLeaflet) (direction : HdyNavigationDirection)
    (direct : Bool) : HdyLeaflet :=
  if s.childTransition.tickScheduled then
    { s with childTransition.tickScheduled := false,
             childTransition.isGestureActive := true,
             childTransition.isCancelled := false }
  else
    let child :=
      if (can_swipe_in_direction s direction ∨ ¬ direct) ∧ s.folded then
        find_swipeable_child s direction
      else none
    match child with
    | some c =>
      let s := { s with childTransition.isGestureActive := true }
      set_visible_child_info s (some c.id) s.transitionType s.childTransition.duration
    | none => s

def hdy_leaflet_update_swipe (s : HdyLeaflet) (value : ℚ) : HdyLeaflet :=
  let s := { s with childTransition.progress := |value| }
  hdy_leaflet_child_progress_updated s

/-- hdy_leaflet_end_swipe, first step: record the progress interval of the
ending gesture and whether it was cancelled. -/
def endSwipePrepare (s : HdyLeaflet) (toValue : ℚ) : HdyLeaflet :=
  { s with childTransition.startProgress := s.childTransition.progress,
           childTransition.endProgress := |toValue|,
           childTransition.isCancelled := decide (toValue = 0),
           childTransition.firstFrameSkipped := true }

/-- hdy_leaflet_end_swipe, second step: either start the tracker for the
remaining animation or jump straight to the end progress. -/
def endSwipeSettle (s : HdyLeaflet) (duration : Int) : HdyLeaflet :=
  if s.enableAnimations ∧ duration ≠ 0 ∧ s.transitionType ≠ .none then
    { s with childTransition.tracker :=
               gtk_progress_tracker_start s.childTransition.tracker }
  else
    { s with childTransition.progress := s.childTransition.endProgress,
             childTransition.tracker :=
               gtk_progress_tracker_finish s.childTransition.tracker }

def hdy_leaflet_end_swipe (s : HdyLeaflet) (duration : Int) (toValue : ℚ) : HdyLeaflet :=
  if ¬ s.childTransition.isGestureActive then s
  else
    let s1 := endSwipePrepare s toValue
    let s2 := hdy_leaflet_schedule_child_ticks s1
    let s3 := endSwipeSettle s2 duration
    let s4 := { s3 with childTransition.isGestureActive := false }
    hdy_leaflet_child_progress_updated s4

/-- External description of a widget handed to hdy_leaflet_add:
gtk_widget_get_visible, gtk_widget_get_preferred_size and
gtk_widget_compute_expand of the new child. -/
structure GtkWidgetParams where
  gtkVisible : Bool
  widgetMin : GtkRequisition
  widgetNat : GtkRequisition
  widgetExpandH : Bool
  widgetExpandV : Bool
deriving DecidableEq

/-- The child_info created by hdy_leaflet_add: g_new0 zeroes every field, then
widget and allow_visible = TRUE are filled in.  The fresh id models the fresh
heap pointer. -/
def newChildInfo (s : HdyLeaflet) (w : GtkWidgetParams) : HdyLeafletChildInfo :=
  { id := s.nextId, hasWidget := true, gtkVisible := w.gtkVisible,
    childVisible := false,
    widgetExpandH := w.widgetExpandH, widgetExpandV := w.widgetExpandV,
    widgetMin := w.widgetMin, widgetNat := w.widgetNat,
    allowVisible := true,
    alloc := ⟨0, 0, 0, 0⟩, min := ⟨0, 0⟩, nat := ⟨0, 0⟩, visible := false }

def hdy_leaflet_add (s : HdyLeaflet) (w : GtkWidgetParams) : HdyLeaflet :=
  let info := newChildInfo s w
  let s1 := { s with children := s.children ++ [info],
                     childrenReversed := info :: s.childrenReversed,
                     nextId := s.nextId + 1 }
  if s1.visibleChild = none ∧ w.gtkVisible then
    set_visible_child_info s1 (some info.id) s1.transitionType s1.childTransition.duration
  else s1

def hdy_leaflet_remove (s : HdyLeaflet) (wid : Nat) : HdyLeaflet :=
  match find_child_info_for_widget s wid with
  | none => s
  | some _ =>
    let s1 := { s with children := s.children.eraseP (fun c => c.id == wid),
                       childrenReversed := s.childrenReversed.eraseP (fun c => c.id == wid) }
    if s1.visibleChild = some wid then
      set_visible_child_info s1 none s1.transitionType s1.childTransition.duration
    else s1

/-- hdy_leaflet_forall: the callback applications are outbound; the traversal
ends by rebuilding children_reversed as the reverse copy of children. -/
def hdy_leaflet_forall (s : HdyLeaflet) : HdyLeaflet :=
  { s with childrenReversed := s.children.reverse }

def childNatSize (orientation : GtkOrientation) (c : HdyLeafletChildInfo) : Int :=
  match orientation with
  | .horizontal => c.nat.width
  | .vertical => c.nat.height

def allocMainSize (orientation : GtkOrientation) (a : GtkAllocation) : Int :=
  match orientation with
  | .horizontal => a.width
  | .vertical => a.height

/-- The box_homogeneous computation shared by the folded transition branch and
the unfolded allocator. -/
def unfoldedBoxHomogeneous (s : HdyLeaflet) : Bool :=
  (s.hhomogeneousUnfolded ∧ s.orientation = .horizontal) ∨
  (s.vhomogeneousUnfolded ∧ s.orientation = .vertical)

/-- First loop of hdy_leaflet_size_allocate_folded: hide every child that is
neither the visible child nor the last visible child. -/
def foldedHideOthers (s : HdyLeaflet) (vid : Nat) : HdyLeaflet :=
  mapChildren s (fun c =>
    if ¬ c.hasWidget then c
    else if c.id = vid then c
    else if s.lastVisibleChild = some c.id then c
    else { c with childVisible := false })

/-- The HDY_LEAFLET_TRANSITION_TYPE_NONE branch of the folded allocator: the
visible child and the last visible child fill the whole allocation, everything
else is invisible. -/
def foldedAllocateNone (s : HdyLeaflet) (vid : Nat) (allocation : GtkAllocation) : HdyLeaflet :=
  mapChildren s (fun c =>
    if c.id ≠ vid ∧ s.lastVisibleChild ≠ some c.id then { c with visible := false }
    else { c with alloc := ⟨0, 0, allocation.width, allocation.height⟩, visible := true })

def foldedVisibleSize (orientation : GtkOrientation) (vc : HdyLeafletChildInfo)
    (allocation : GtkAllocation) (currentPos : ℚ) : Int :=
  match orientation with
  | .horizontal =>
    min allocation.width
      (max vc.nat.width (truncToInt ((allocation.width : ℚ) * (1 - currentPos))))
  | .vertical =>
    min allocation.height
      (max vc.nat.height (truncToInt ((allocation.height : ℚ) * (1 - currentPos))))

def foldedMaxChildSize (orientation : GtkOrientation) (boxH : Bool)
    (directed : List HdyLeafletChildInfo) : Int :=
  if boxH then directed.foldl (fun m c => max m (childNatSize orientation c)) 0 else 0

def foldedSideSum (orientation : GtkOrientation) (boxH : Bool) (maxChildSize : Int)
    (l : List HdyLeafletChildInfo) : Int :=
  l.foldl (fun a c => a + (if boxH then maxChildSize else childNatSize orientation c)) 0

/-- Store the start and end surface allocations, clips, progresses and
distances of the mode transition (folded allocator, transition branch). -/
def foldedStoreSurfaces (s : HdyLeaflet) (modeType : HdyLeafletTransitionType)
    (allocation : GtkAllocation)
    (visibleSize startSize endSize remainingSize remainingStartSize remainingEndSize : Int) :
    HdyLeaflet :=
  match s.orientation with
  | .horizontal =>
    let under1 := (modeType = .over ∧ s.textDirection = .ltr) ∨
                  (modeType = .under ∧ s.textDirection = .rtl)
    let under2 := (modeType = .under ∧ s.textDirection = .ltr) ∨
                  (modeType = .over ∧ s.textDirection = .rtl)
    { s with modeTransition.startSurfaceAllocation :=
               ⟨if under1 then 0 else remainingStartSize - startSize, 0,
                if under1 then remainingSize else startSize, allocation.height⟩,
             modeTransition.startProgress :=
               if under1 then (remainingSize : ℚ) / (startSize : ℚ) else 1,
             modeTransition.endSurfaceAllocation :=
               ⟨if under2 then allocation.width - endSize else remainingStartSize + visibleSize,
                0, endSize, allocation.height⟩,
             modeTransition.endSurfaceClip :=
               ⟨remainingStartSize + visibleSize, 0, endSize, allocation.height⟩,
             modeTransition.endProgress :=
               if under2 then (remainingEndSize : ℚ) / (endSize : ℚ) else 1,
             modeTransition.startDistance := (startSize : ℚ),
             modeTransition.endDistance := (endSize : ℚ) }
  | .vertical =>
    let under1 := modeType = .over
    let under2 := modeType = .under
    { s with modeTransition.startSurfaceAllocation :=
               ⟨0, if under1 then 0 else remainingStartSize - startSize,
                allocation.width, if under1 then remainingSize else startSize⟩,
             modeTransition.startProgress :=
               if under1 then (remainingSize : ℚ) / (startSize : ℚ) else 1,
             modeTransition.endSurfaceAllocation :=
               ⟨0, remainingStartSize + visibleSize, allocation.width, endSize⟩,
             modeTransition.endSurfaceClip :=
               ⟨0, remainingStartSize + visibleSize, allocation.width, endSize⟩,
             modeTransition.endProgress :=
               if under2 then (remainingEndSize : ℚ) / (endSize : ℚ) else 1,
             modeTransition.startDistance := (startSize : ℚ),
             modeTransition.endDistance := (endSize : ℚ) }

def foldedAllocateVisible (s : HdyLeaflet) (vc : HdyLeafletChildInfo)
    (allocation : GtkAllocation) (visibleSize remainingStartSize : Int) : HdyLeaflet :=
  match s.orientation with
  | .horizontal =>
    commitDirected s
      [{ vc with alloc := ⟨remainingStartSize, 0, visibleSize, allocation.height⟩,
                 visible := true }]
  | .vertical =>
    commitDirected s
      [{ vc with alloc := ⟨0, remainingStartSize, allocation.width, visibleSize⟩,
                 visible := true }]

/-- Allocation loop for the children before the visible child in the folded
transition branch; currentPad is decremented by the width just written. -/
def foldedStartLoop (orientation : GtkOrientation) (boxH : Bool) (maxChildSize : Int)
    (allocation : GtkAllocation) :
    List HdyLeafletChildInfo → Int → List HdyLeafletChildInfo
  | [], _ => []
  | c :: rest, currentPad =>
    match orientation with
    | .horizontal =>
      let w := if boxH then maxChildSize else c.nat.width
      { c with alloc := ⟨-currentPad, 0, w, allocation.height⟩,
               visible := decide (-currentPad + w > 0) } ::
        foldedStartLoop orientation boxH maxChildSize allocation rest (currentPad - w)
    | .vertical =>
      let h := if boxH then maxChildSize else c.nat.height
      { c with alloc := ⟨0, -currentPad, allocation.width, h⟩,
               visible := decide (-currentPad + h > 0) } ::
        foldedStartLoop orientation boxH maxChildSize allocation rest (currentPad - h)

/-- Allocation loop for the children after the visible child, iterated from
the end of the list; currentPad is decremented by the width stored in the
child before the new one is written, as in the source. -/
def foldedEndLoop (orientation : GtkOrientation) (boxH : Bool) (maxChildSize : Int)
    (allocation : GtkAllocation) :
    List HdyLeafletChildInfo → Int → List HdyLeafletChildInfo
  | [], _ => []
  | c :: rest, currentPad =>
    match orientation with
    | .horizontal =>
      let pad := currentPad - c.alloc.width
      let w := if boxH then maxChildSize else c.nat.width
      { c with alloc := ⟨pad, 0, w, allocation.height⟩,
               visible := decide (pad < allocation.width) } ::
        foldedEndLoop orientation boxH maxChildSize allocation rest pad
    | .vertical =>
      let pad := currentPad - c.alloc.height
      let h := if boxH then maxChildSize else c.nat.height
      { c with alloc := ⟨0, pad, allocation.width, h⟩,
               visible := decide (pad < allocation.height) } ::
        foldedEndLoop orientation boxH maxChildSize allocation rest pad

def startPadOfSurfaces (s : HdyLeaflet) : Int :=
  match s.orientation with
  | .horizontal => -(s.modeTransition.startSurfaceAllocation.x)
  | .vertical => -(s.modeTransition.startSurfaceAllocation.y)

def endPadOfSurfaces (s : HdyLeaflet) : Int :=
  match s.orientation with
  | .horizontal => s.modeTransition.endSurfaceAllocation.x
  | .vertical => s.modeTransition.endSurfaceAllocation.y

/-- The SLIDE/OVER/UNDER branch of hdy_leaflet_size_allocate_folded. -/
def foldedAllocateTransition (s : HdyLeaflet) (vc : HdyLeafletChildInfo) (vid : Nat)
    (modeType : HdyLeafletTransitionType) (allocation : GtkAllocation) : HdyLeaflet :=
  let orientation := s.orientation
  let directed := get_directed_children s
  let visibleSize := foldedVisibleSize orientation vc allocation s.modeTransition.currentPos
  let boxH := unfoldedBoxHomogeneous s
  let maxChildSize := foldedMaxChildSize orientation boxH directed
  let startSize := foldedSideSum orientation boxH maxChildSize
                     (directed.takeWhile (fun c => c.id != vid))
  let endSize := foldedSideSum orientation boxH maxChildSize
                   (directed.reverse.takeWhile (fun c => c.id != vid))
  let remainingSize := allocMainSize orientation allocation - visibleSize
  let remainingStartSize :=
    truncToInt ((remainingSize : ℚ) * ((startSize : ℚ) / ((startSize : ℚ) + (endSize : ℚ))))
  let remainingEndSize := remainingSize - remainingStartSize
  let s1 := foldedStoreSurfaces s modeType allocation visibleSize startSize endSize
              remainingSize remainingStartSize remainingEndSize
  let s2 := foldedAllocateVisible s1 vc allocation visibleSize remainingStartSize
  let s3 := commitDirected s2
              (foldedStartLoop s2.orientation boxH maxChildSize allocation
                ((get_directed_children s2).takeWhile (fun c => c.id != vid))
                (startPadOfSurfaces s2))
  commitDirected s3
    (foldedEndLoop s3.orientation boxH maxChildSize allocation
      ((get_directed_children s3).reverse.takeWhile (fun c => c.id != vid))
      (endPadOfSurfaces s3))

def hdy_leaflet_size_allocate_folded (s : HdyLeaflet) (allocation : GtkAllocation) :
    HdyLeaflet :=
  match s.visibleChild with
  | none => s
  | some vid =>
    match find_child_info_for_widget s vid with
    | none => s
    | some vc =>
      let s1 := foldedHideOthers s vid
      if ¬ vc.hasWidget then s1
      else if ¬ vc.gtkVisible then gtk_widget_set_child_visible s1 vid false
      else
        let s2 := gtk_widget_set_child_visible s1 vid true
        let modeType :=
          if s2.modeTransition.currentPos ≤ 0 then HdyLeafletTransitionType.none
          else s2.transitionType
        if modeType = .none then foldedAllocateNone s2 vid allocation
        else foldedAllocateTransition s2 vc vid modeType allocation

def computeExpand (orientation : GtkOrientation) (c : HdyLeafletChildInfo) : Bool :=
  match orientation with
  | .horizontal => c.widgetExpandH
  | .vertical => c.widgetExpandV

/-- Visibility pass of the unfolded allocator: invisible children have their
cached sizes zeroed. -/
def unfoldedVisibilityPass (s : HdyLeaflet) : HdyLeaflet :=
  mapChildren s (fun c =>
    if c.hasWidget ∧ c.gtkVisible then { c with visible := true }
    else { c with visible := false, min := ⟨0, 0⟩, nat := ⟨0, 0⟩ })

/-- Main allocation loop of the unfolded allocator, threading the remaining
allocation and the number of widgets still owed one extra pixel. -/
def unfoldedMainLoop (orientation : GtkOrientation) (boxH : Bool)
    (homogeneousSize perChildExtra : Int) :
    List HdyLeafletChildInfo → GtkAllocation → Int →
    List HdyLeafletChildInfo × GtkAllocation × Int
  | [], remaining, nExtra => ([], remaining, nExtra)
  | c :: rest, remaining, nExtra =>
    if ¬ c.visible then
      let r := unfoldedMainLoop orientation boxH homogeneousSize perChildExtra rest remaining nExtra
      (c :: r.1, r.2)
    else
      match orientation with
      | .horizontal =>
        let wExtra : Int × Int :=
          if boxH then
            if nExtra > 0 then (homogeneousSize + 1, nExtra - 1) else (homogeneousSize, nExtra)
          else
            if computeExpand orientation c then
              if nExtra > 0 then (c.nat.width + perChildExtra + 1, nExtra - 1)
              else (c.nat.width + perChildExtra, nExtra)
            else (c.nat.width, nExtra)
        let c1 := { c with alloc := ⟨remaining.x, remaining.y, wExtra.1, remaining.height⟩ }
        let remaining1 := { remaining with x := remaining.x + wExtra.1,
                                           width := remaining.width - wExtra.1 }
        let r := unfoldedMainLoop orientation boxH homogeneousSize perChildExtra rest remaining1 wExtra.2
        (c1 :: r.1, r.2)
      | .vertical =>
        let hExtra : Int × Int :=
          if boxH then
            if nExtra > 0 then (homogeneousSize + 1, nExtra - 1) else (homogeneousSize, nExtra)
          else
            if computeExpand orientation c then
              if nExtra > 0 then (c.nat.height + perChildExtra + 1, nExtra - 1)
              else (c.nat.height + perChildExtra, nExtra)
            else (c.nat.height, nExtra)
        let c1 := { c with alloc := ⟨remaining.x, remaining.y, remaining.width, hExtra.1⟩ }
        let remaining1 := { remaining with y := remaining.y + hExtra.1,
                                           height := remaining.height - hExtra.1 }
        let r := unfoldedMainLoop orientation boxH homogeneousSize perChildExtra rest remaining1 hExtra.2
        (c1 :: r.1, r.2)

def unfoldedStartUnder (s : HdyLeaflet) : Bool :=
  match s.orientation with
  | .horizontal => (s.transitionType = .over ∧ s.textDirection = .ltr) ∨
                   (s.transitionType = .under ∧ s.textDirection = .rtl)
  | .vertical => s.transitionType = .over

def unfoldedEndUnder (s : HdyLeaflet) : Bool :=
  match s.orientation with
  | .horizontal => (s.transitionType = .under ∧ s.textDirection = .ltr) ∨
                   (s.transitionType = .over ∧ s.textDirection = .rtl)
  | .vertical => s.transitionType = .under

def unfoldedStoreDistances (s : HdyLeaflet) (vc : HdyLeafletChildInfo)
    (allocation : GtkAllocation) : HdyLeaflet :=
  match s.orientation with
  | .horizontal =>
    { s with modeTransition.startDistance := (vc.alloc.x : ℚ),
             modeTransition.endDistance :=
               ((allocation.width - (vc.alloc.x + vc.alloc.width)) : ℚ) }
  | .vertical =>
    { s with modeTransition.startDistance := (vc.alloc.y : ℚ),
             modeTransition.endDistance :=
               ((allocation.height - (vc.alloc.y + vc.alloc.height)) : ℚ) }

/-- Shift the visible children before the visible child towards the start,
unless the start side slides under the visible child. -/
def unfoldedShiftStart (s : HdyLeaflet) (vid : Nat) (startPad : Int) : HdyLeaflet :=
  let under := unfoldedStartUnder s
  let prefixIds := ((get_directed_children s).takeWhile (fun c => c.id != vid)).map
                     (fun c => c.id)
  let s1 :=
    if under then s
    else
      mapChildren s (fun c =>
        if prefixIds.contains c.id ∧ c.visible then
          match s.orientation with
          | .horizontal => { c with alloc := { c.alloc with x := c.alloc.x - startPad } }
          | .vertical => { c with alloc := { c.alloc with y := c.alloc.y - startPad } }
        else c)
  { s1 with modeTransition.startProgress :=
              if under then s1.modeTransition.currentPos else 1 }

/-- Shift the visible children after the visible child towards the end,
unless the end side slides under the visible child. -/
def unfoldedShiftEnd (s : HdyLeaflet) (vid : Nat) (endPad : Int) : HdyLeaflet :=
  let under := unfoldedEndUnder s
  let suffixIds := ((get_directed_children s).reverse.takeWhile (fun c => c.id != vid)).map
                     (fun c => c.id)
  let s1 :=
    if under then s
    else
      mapChildren s (fun c =>
        if suffixIds.contains c.id ∧ c.visible then
          match s.orientation with
          | .horizontal => { c with alloc := { c.alloc with x := c.alloc.x + endPad } }
          | .vertical => { c with alloc := { c.alloc with y := c.alloc.y + endPad } }
        else c)
  { s1 with modeTransition.endProgress :=
              if under then s1.modeTransition.currentPos else 1 }

def unfoldedAdjustVisible (s : HdyLeaflet) (vid : Nat) (startPad endPad : Int) : HdyLeaflet :=
  mapChildren s (fun c =>
    if c.id = vid then
      match s.orientation with
      | .horizontal =>
        { c with alloc := { c.alloc with x := c.alloc.x - startPad,
                                         width := c.alloc.width + startPad + endPad } }
      | .vertical =>
        { c with alloc := { c.alloc with y := c.alloc.y - startPad,
                                         height := c.alloc.height + startPad + endPad } }
    else c)

def unfoldedStartPad (s : HdyLeaflet) (vc : HdyLeafletChildInfo) : Int :=
  match s.orientation with
  | .horizontal => truncToInt ((vc.alloc.x : ℚ) * (1 - s.modeTransition.currentPos))
  | .vertical => truncToInt ((vc.alloc.y : ℚ) * (1 - s.modeTransition.currentPos))

def unfoldedEndPad (s : HdyLeaflet) (vc : HdyLeafletChildInfo) (allocation : GtkAllocation) :
    Int :=
  match s.orientation with
  | .horizontal =>
    truncToInt (((allocation.width - (vc.alloc.x + vc.alloc.width)) : ℚ) *
                (1 - s.modeTransition.currentPos))
  | .vertical =>
    truncToInt (((allocation.height - (vc.alloc.y + vc.alloc.height)) : ℚ) *
                (1 - s.modeTransition.currentPos))

/-- Apply animations section of the unfolded allocator. -/
def unfoldedApplyAnimations (s : HdyLeaflet) (vid : Nat) (allocation : GtkAllocation) :
    HdyLeaflet :=
  match find_child_info_for_widget s vid with
  | none => s
  | some vc =>
    let startPad := unfoldedStartPad s vc
    let endPad := unfoldedEndPad s vc allocation
    let s1 := unfoldedStoreDistances s vc allocation
    let s2 := unfoldedShiftStart s1 vid startPad
    let s3 := unfoldedShiftEnd s2 vid endPad
    unfoldedAdjustVisible s3 vid startPad endPad

def hdy_leaflet_size_allocate_unfolded (s : HdyLeaflet) (allocation : GtkAllocation) :
    HdyLeaflet :=
  match s.visibleChild with
  | none => s
  | some vid =>
    let orientation := s.orientation
    let boxH := unfoldedBoxHomogeneous s
    let s1 := unfoldedVisibilityPass s
    let directed := get_directed_children s1
    let nVisible : Int := directed.foldl (fun n c => if c.visible then n + 1 else n) 0
    let nExpand0 : Int := directed.foldl
      (fun n c => if c.visible ∧ computeExpand orientation c then n + 1 else n) 0
    let mainSize := allocMainSize orientation allocation
    let homogTriple : Int × Int × Int :=
      if boxH then
        (Int.tdiv mainSize nVisible, Int.tmod mainSize nVisible,
         mainSize - Int.tmod mainSize nVisible)
      else
        (0, nExpand0, directed.foldl (fun a c => a + childNatSize orientation c) 0)
    let remaining0 : GtkAllocation := ⟨0, 0, allocation.width, allocation.height⟩
    let extraSize := allocMainSize orientation remaining0 - homogTriple.2.2
    let extras : Int × Int :=
      if homogTriple.2.1 > 0 then
        (Int.tdiv extraSize homogTriple.2.1, Int.tmod extraSize homogTriple.2.1)
      else (0, 0)
    let upd := (unfoldedMainLoop orientation boxH homogTriple.1 extras.1
                  (get_directed_children s1) remaining0 extras.2).1
    let s2 := commitDirected s1 upd
    unfoldedApplyAnimations s2 vid allocation

/-- Prepare children information at the top of hdy_leaflet_size_allocate: the
cached sizes are refreshed from the widgets, allocations and visibility are
reset. -/
def prepChild (c : HdyLeafletChildInfo) : HdyLeafletChildInfo :=
  { c with min := c.widgetMin, nat := c.widgetNat,
           alloc := ⟨0, 0, 0, 0⟩, visible := false }

def sizeAllocatePrepare (s : HdyLeaflet) : HdyLeaflet :=
  mapChildren s prepChild

/-- The check whether the children should be stacked or not, from
hdy_leaflet_size_allocate. -/
def hdy_leaflet_fold_decision (s : HdyLeaflet) (allocation : GtkAllocation) : Bool :=
  let directed := get_directed_children s
  match s.orientation with
  | .horizontal =>
    let acc := directed.foldl
      (fun (a : Int × Int × Int) c =>
        if ¬ c.hasWidget then a
        else (a.1 + c.nat.width, max a.2.1 c.nat.width, a.2.2 + 1))
      (0, 0, 0)
    let natBoxSize := if s.hhomogeneousUnfolded then acc.2.1 * acc.2.2 else acc.1
    decide (allocation.width < natBoxSize)
  | .vertical =>
    let acc := directed.foldl
      (fun (a : Int × Int × Int) c =>
        if ¬ c.hasWidget then a
        else (a.1 + c.nat.height, max a.2.1 c.nat.height, a.2.2 + 1))
      (0, 0, 0)
    let natBoxSize := if s.vhomogeneousUnfolded then acc.2.1 * acc.2.2 else acc.1
    decide (allocation.height < natBoxSize)

def hdy_leaflet_size_allocate (s : HdyLeaflet) (allocation : GtkAllocation) : HdyLeaflet :=
  let s0 := if s.realized then move_resize_bin_window s else s
  let s1 := sizeAllocatePrepare s0
  let folded := hdy_leaflet_fold_decision s1 allocation
  let s2 := hdy_leaflet_set_folded s1 folded
  let s3 :=
    if folded then hdy_leaflet_size_allocate_folded s2 allocation
    else hdy_leaflet_size_allocate_unfolded s2 allocation
  mapChildren s3 (fun c => { c with childVisible := c.visible })

/-- hdy_leaflet_init: the state of a freshly constructed leaflet.  The widget
starts unrealized, unmapped and flagged visible by its container defaults; the
enable-animations setting defaults to TRUE. -/
def hdy_leaflet_default : HdyLeaflet :=
  { children := [], childrenReversed := [], visibleChild := none, lastVisibleChild := none,
    folded := false,
    hhomogeneousFolded := true, vhomogeneousFolded := true,
    hhomogeneousUnfolded := false, vhomogeneousUnfolded := false,
    orientation := .horizontal, moveBinWindowRequest := false,
    transitionType := .none,
    modeTransition :=
      { duration := 250, currentPos := 1, sourcePos := 0, targetPos := 1,
        hasStartSurface := false, startSurfaceAllocation := ⟨0, 0, 0, 0⟩,
        startDistance := 0, startProgress := 0,
        hasEndSurface := false, endSurfaceAllocation := ⟨0, 0, 0, 0⟩,
        endSurfaceClip := ⟨0, 0, 0, 0⟩, endDistance := 0, endProgress := 0,
        tickScheduled := false, tracker := .after },
    childTransition :=
      { duration := 200, progress := 0, startProgress := 0, endProgress := 0,
        isGestureActive := false, isCancelled := false, hasLastVisibleSurface := false,
        lastVisibleSurfaceAllocation := ⟨0, 0, 0, 0⟩,
        tickScheduled := false, tracker := .after, firstFrameSkipped := false,
        lastVisibleWidgetWidth := 0, lastVisibleWidgetHeight := 0,
        interpolateSize := false, canSwipeBack := false, canSwipeForward := false,
        activeType := .none, activeDirection := .left },
    mapped := false, realized := false, widgetVisible := true, textDirection := .ltr,
    enableAnimations := true, nextId := 0 }

/-- Public entry points and environment inputs of the leaflet.  Ticks fire
only while their callback is installed; mapping, the text direction and the
animations setting are environment changes. -/
inductive LeafletEvent where
  | setMapped (b : Bool)
  | setRealized (b : Bool)
  | setWidgetVisible (b : Bool)
  | setTextDirection (d : GtkTextDirection)
  | setEnableAnimations (b : Bool)
  | setTransitionType (t : HdyLeafletTransitionType)
  | setModeTransitionDuration (d : Nat)
  | setChildTransitionDuration (d : Nat)
  | setCanSwipeBack (b : Bool)
  | setCanSwipeForward (b : Bool)
  | addChild (w : GtkWidgetParams)
  | removeChild (wid : Nat)
  | setVisibleChild (wid : Nat)
  | navigate (d : HdyNavigationDirection)
  | sizeAllocate (a : GtkAllocation)
  | beginSwipe (d : HdyNavigationDirection) (direct : Bool)
  | updateSwipe (v : ℚ)
  | endSwipe (duration : Int) (toValue : ℚ)
  | childTransitionTick (ease : ℚ) (ends : Bool)
  | modeTransitionTick (ease : ℚ) (ends : Bool)
  | traverseChildren

def leafletStep (s : HdyLeaflet) (e : LeafletEvent) : HdyLeaflet :=
  match e with
  | .setMapped b => { s with mapped := b }
  | .setRealized b => { s with realized := b }
  | .setWidgetVisible b => { s with widgetVisible := b }
  | .setTextDirection d => { s with textDirection := d }
  | .setEnableAnimations b => { s with enableAnimations := b }
  | .setTransitionType t => hdy_leaflet_set_transition_type s t
  | .setModeTransitionDuration d => hdy_leaflet_set_mode_transition_duration s d
  | .setChildTransitionDuration d => hdy_leaflet_set_child_transition_duration s d
  | .setCanSwipeBack b => hdy_leaflet_set_can_swipe_back s b
  | .setCanSwipeForward b => hdy_leaflet_set_can_swipe_forward s b
  | .addChild w => hdy_leaflet_add s w
  | .removeChild wid => hdy_leaflet_remove s wid
  | .setVisibleChild wid => hdy_leaflet_set_visible_child s wid
  | .navigate d => (hdy_leaflet_navigate s d).2
  | .sizeAllocate a => hdy_leaflet_size_allocate s a
  | .beginSwipe d direct => hdy_leaflet_begin_swipe s d direct
  | .updateSwipe v => hdy_leaflet_update_swipe s v
  | .endSwipe duration toValue => hdy_leaflet_end_swipe s duration toValue
  | .childTransitionTick ease ends =>
    if s.childTransition.tickScheduled then (hdy_leaflet_child_transition_cb s ease ends).1
    else s
  | .modeTransitionTick ease ends =>
    if s.modeTransition.tickScheduled then (hdy_leaflet_mode_transition_cb s ease ends).1
    else s
  | .traverseChildren => hdy_leaflet_forall s

def runEvents (l : List LeafletEvent) : HdyLeaflet :=
  l.foldl leafletStep hdy_leaflet_default

def ReachableLeaflet (s : HdyLeaflet) : Prop :=
  ∃ evs : List LeafletEvent, runEvents evs = s

/-- Natural widths reported by the widgets of the children (the accumulated
sizes the fold decision is about). -/
def childNatWidths (l : List HdyLeafletChildInfo) : List Int :=
  l.map (fun c => c.widgetNat.width)

def childNatHeights (l : List HdyLeafletChildInfo) : List Int :=
  l.map (fun c => c.widgetNat.height)

/-- The accumulated natural size of the claim: the sum of the natural sizes,
replaced by the maximum times the number of children when the unfolded
orientation is homogeneous. -/
def accumulatedNatSize (s : HdyLeaflet) : Int :=
  match s.orientation with
  | .horizontal =>
    if s.hhomogeneousUnfolded then
      (childNatWidths s.children).foldl max 0 * s.children.length
    else (childNatWidths s.children).sum
  | .vertical =>
    if s.vhomogeneousUnfolded then
      (childNatHeights s.children).foldl max 0 * s.children.length
    else (childNatHeights s.children).sum

def allocatedMainSize (s : HdyLeaflet) (a : GtkAllocation) : Int :=
  match s.orientation with
  | .horizontal => a.width
  | .vertical => a.height

/-- Positions of a side-by-side layout: each element is the sum of the
preceding ones, starting from a. -/
def prefixSumsFrom (a : Int) : List Int → List Int
  | [] => []
  | x :: xs => a :: prefixSumsFrom (a + x) xs

/-- Well-formedness of the child bookkeeping: children_reversed is the exact
reverse of children, ids are distinct, and nextId is fresh. -/
def LeafletChildListWF (s : HdyLeaflet) : Prop :=
  s.childrenReversed = s.children.reverse ∧
  (s.children.map (fun c => c.id)).Nodup ∧
  ∀ c ∈ s.children, c.id < s.nextId

/-- A generic child used by concrete instances below. -/
def mkChild (i : Nat) (allow : Bool) (natW natH : Int) : HdyLeafletChildInfo :=
  { id := i, hasWidget := true, gtkVisible := true, childVisible := false,
    widgetExpandH := false, widgetExpandV := false,
    widgetMin := ⟨0, 0⟩, widgetNat := ⟨natW, natH⟩,
    allowVisible := allow, alloc := ⟨0, 0, 0, 0⟩,
    min := ⟨0, 0⟩, nat := ⟨0, 0⟩, visible := false }

def mkWidgetParams (natW natH : Int) : GtkWidgetParams :=
  { gtkVisible := true, widgetMin := ⟨0, 0⟩, widgetNat := ⟨natW, natH⟩,
    widgetExpandH := false, widgetExpandV := false }

/-- Concrete input of the C9 failing case: the only child before the visible
one has allow-visible FALSE. -/
def navCexState : HdyLeaflet :=
  { hdy_leaflet_default with
    children := [mkChild 0 false 10 10, mkChild 1 true 10 10],
    childrenReversed := [mkChild 1 true 10 10, mkChild 0 false 10 10],
    visibleChild := some 1,
    childTransition.canSwipeBack := true }

/-- Trace reaching a state in which both tick callbacks are scheduled: fold
the leaflet (scheduling a mode tick), start a swipe while the mode tick is
still pending, and end the swipe, which schedules the child tick
unconditionally. -/
def tickTrace : List LeafletEvent :=
  [.setMapped true, .setTransitionType .slide, .setCanSwipeBack true,
   .addChild (mkWidgetParams 100 100), .addChild (mkWidgetParams 100 100),
   .sizeAllocate ⟨0, 0, 150, 200⟩,
   .setVisibleChild 1, .beginSwipe .back true, .endSwipe 200 1]

/-- Concrete unfolded horizontal homogeneous leaflet: three children, width
10, so a box would distribute 4+3+3; the leaflet allocates 3+3+3. -/
def c5CexState : HdyLeaflet :=
  sizeAllocatePrepare
    { hdy_leaflet_default with
      children := [mkChild 0 true 4 4, mkChild 1 true 4 4, mkChild 2 true 4 4],
      childrenReversed := [mkChild 2 true 4 4, mkChild 1 true 4 4, mkChild 0 true 4 4],
      visibleChild := some 0,
      hhomogeneousUnfolded := true }

def c5CexAlloc : GtkAllocation := ⟨0, 0, 10, 20⟩

/-- Concrete state of a leaflet in the middle of a swipe gesture, for the C2
witness. -/
def c2WitnessState : HdyLeaflet :=
  { hdy_leaflet_default with
    children := [mkChild 0 true 10 10, mkChild 1 true 10 10],
    childrenReversed := [mkChild 1 true 10 10, mkChild 0 true 10 10],
    visibleChild := some 1, lastVisibleChild := some 0,
    folded := true,
    childTransition.isGestureActive := true }

/-- Concrete folded state for the C4 witness: two children, the first one
visible, no transition in progress. -/
def c4WitnessState : HdyLeaflet :=
  { hdy_leaflet_default with
    children := [mkChild 0 true 100 100, mkChild 1 true 100 100],
    childrenReversed := [mkChild 1 true 100 100, mkChild 0 true 100 100],
    visibleChild := some 0,
    folded := true,
    modeTransition.currentPos := 0,
    modeTransition.targetPos := 0 }

def c4WitnessAlloc : GtkAllocation := ⟨0, 0, 150, 200⟩

/-- Concrete unfolded state for the C5 witness: two visible children of four
pixels each in a width of eight. -/
def c5WitnessState : HdyLeaflet :=
  sizeAllocatePrepare
    { hdy_leaflet_default with
      children := [mkChild 0 true 4 4, mkChild 1 true 4 4],
      childrenReversed := [mkChild 1 true 4 4, mkChild 0 true 4 4],
      visibleChild := some 0,
      hhomogeneousUnfolded := true }

def c5WitnessAlloc : GtkAllocation := ⟨0, 0, 8, 20⟩

/-- Both child lists of t are the child lists of s mapped through one
id-preserving function, and nextId is unchanged.  Every state mutation that
the leaflet performs on existing children has this shape, since the C code
mutates the shared child_info structs that both lists point to. -/
def IdMapped (s t : HdyLeaflet) : Prop :=
  ∃ g : HdyLeafletChildInfo → HdyLeafletChildInfo,
    (∀ c, (g c).id = c.id) ∧
    t.children = s.children.map g ∧
    t.childrenReversed = s.childrenReversed.map g ∧
    t.nextId = s.nextId

/-- Concrete input of the C1 witness: two four-pixel children in a width of
eight, so the accumulated natural width equals the allocation and the
leaflet stays unfolded. -/
def c1WitnessState : HdyLeaflet :=
  { hdy_leaflet_default with
    children := [mkChild 0 true 4 4, mkChild 1 true 4 4],
    childrenReversed := [mkChild 1 true 4 4, mkChild 0 true 4 4],
    visibleChild := some 0, nextId := 2 }

def c1WitnessAlloc : GtkAllocation := ⟨0, 0, 8, 20⟩

/-- A state whose mode-transition tick callback is active, for the C3
amended-part witness. -/
def modeTickState : HdyLeaflet :=
  { hdy_leaflet_default with modeTransition.tickScheduled := true }

/-- Spec-side expected layout of one unfolded row: children side by side
from x, each of its assigned width, spanning the full height. -/
def expectedRow (boxH : Bool) (h0 y hgt : Int) :
    List HdyLeafletChildInfo → Int → List HdyLeafletChildInfo
  | [], _ => []
  | c :: rest, x =>
    { c with alloc := ⟨x, y, (if boxH then h0 else c.nat.width), hgt⟩ } ::
      expectedRow boxH h0 y hgt rest (x + (if boxH then h0 else c.nat.width))

/-- Claim C7: hdy_leaflet_get_child_transition_running returns TRUE exactly
when a child-transition tick callback is scheduled or a swipe gesture is
driving the transition. -/
theorem hdy_leaflet_child_transition_running_iff (s : HdyLeaflet) :
    hdy_leaflet_get_child_transition_running s = true ↔
      (s.childTransition.tickScheduled = true ∨ s.childTransition.isGestureActive = true) := by
  simp [hdy_leaflet_get_child_transition_running]

/-- Claim C9, behaviour of the code at the failing input: with children
[A, B] where only A precedes the visible child B and A has allow-visible
FALSE, hdy_leaflet_navigate BACK returns TRUE and makes A the visible child,
contradicting the documented behaviour of never navigating to a child whose
allow-visible is FALSE. -/
theorem hdy_leaflet_navigate_allow_visible_bug :
    (navCexState.children.map (fun c => (c.id, c.allowVisible))) = [(0, false), (1, true)] ∧
    (hdy_leaflet_navigate navCexState .back).1 = true ∧
    (hdy_leaflet_navigate navCexState .back).2.visibleChild = some 0 := by
  refine ⟨by decide, by decide, by decide⟩

/-- Claim C3, counterexample: a reachable state in which both the mode
transition tick callback and the child transition tick callback are scheduled
at the same time, refuting the claim that at most one of the two is scheduled
in every reachable state. -/
theorem hdy_leaflet_tick_exclusion_counterexample :
    ∃ s : HdyLeaflet, ReachableLeaflet s ∧
      s.modeTransition.tickScheduled = true ∧ s.childTransition.tickScheduled = true :=
  ⟨runEvents tickTrace, ⟨tickTrace, rfl⟩, by decide, by decide⟩

lemma move_resize_bin_window_childTransition (s : HdyLeaflet) :
    (move_resize_bin_window s).childTransition = s.childTransition := by
  simp only [move_resize_bin_window]; split <;> rfl

lemma move_resize_bin_window_modeTransition (s : HdyLeaflet) :
    (move_resize_bin_window s).modeTransition = s.modeTransition := by
  simp only [move_resize_bin_window]; split <;> rfl

lemma child_progress_updated_gesture (s : HdyLeaflet)
    (hg : s.childTransition.isGestureActive = true) :
    hdy_leaflet_child_progress_updated s = move_resize_bin_window s := by
  simp only [hdy_leaflet_child_progress_updated, move_resize_bin_window_childTransition, hg]
  simp

lemma child_progress_updated_tickScheduled (s : HdyLeaflet) :
    (hdy_leaflet_child_progress_updated s).childTransition.tickScheduled =
      s.childTransition.tickScheduled := by
  simp only [hdy_leaflet_child_progress_updated, move_resize_bin_window,
    gtk_widget_set_child_visible, mapChildren]
  repeat' split
  all_goals rfl

lemma stop_child_transition_env (s : HdyLeaflet) :
    (hdy_leaflet_stop_child_transition s).modeTransition = s.modeTransition ∧
    (hdy_leaflet_stop_child_transition s).mapped = s.mapped ∧
    (hdy_leaflet_stop_child_transition s).transitionType = s.transitionType ∧
    (hdy_leaflet_stop_child_transition s).enableAnimations = s.enableAnimations ∧
    (hdy_leaflet_stop_child_transition s).folded = s.folded ∧
    (hdy_leaflet_stop_child_transition s).visibleChild = s.visibleChild ∧
    (hdy_leaflet_stop_child_transition s).lastVisibleChild = none ∧
    (hdy_leaflet_stop_child_transition s).childTransition.tickScheduled = false := by
  simp only [hdy_leaflet_stop_child_transition, hdy_leaflet_unschedule_child_ticks,
    gtk_widget_set_child_visible, mapChildren]
  repeat' split
  all_goals simp_all

lemma set_position_env (s : HdyLeaflet) (pos : ℚ) :
    (hdy_leaflet_set_position s pos).modeTransition.targetPos = s.modeTransition.targetPos ∧
    (hdy_leaflet_set_position s pos).modeTransition.currentPos = pos ∧
    (hdy_leaflet_set_position s pos).childTransition = s.childTransition ∧
    (hdy_leaflet_set_position s pos).folded = s.folded := by
  simp only [hdy_leaflet_set_position, find_child_info_for_widget,
    gtk_widget_set_child_visible, mapChildren]
  repeat' split
  all_goals simp_all

lemma stop_child_modeTransition (s : HdyLeaflet) :
    (hdy_leaflet_stop_child_transition s).modeTransition = s.modeTransition :=
  (stop_child_transition_env s).1

lemma stop_child_tickScheduled (s : HdyLeaflet) :
    (hdy_leaflet_stop_child_transition s).childTransition.tickScheduled = false :=
  (stop_child_transition_env s).2.2.2.2.2.2.2

lemma set_position_targetPos (s : HdyLeaflet) (pos : ℚ) :
    (hdy_leaflet_set_position s pos).modeTransition.targetPos = s.modeTransition.targetPos :=
  (set_position_env s pos).1

lemma set_position_currentPos (s : HdyLeaflet) (pos : ℚ) :
    (hdy_leaflet_set_position s pos).modeTransition.currentPos = pos :=
  (set_position_env s pos).2.1

lemma set_position_childTransition (s : HdyLeaflet) (pos : ℚ) :
    (hdy_leaflet_set_position s pos).childTransition = s.childTransition :=
  (set_position_env s pos).2.2.1

lemma start_mode_transition_targetPos (s : HdyLeaflet) (target : ℚ) :
    (hdy_leaflet_start_mode_transition s target).modeTransition.targetPos = target := by
  simp only [hdy_leaflet_start_mode_transition]
  split
  · assumption
  · split
    · split <;> simp [stop_child_modeTransition]
    · simp [set_position_targetPos, stop_child_modeTransition]

lemma start_mode_transition_currentPos_direct (s : HdyLeaflet) (target : ℚ)
    (hne : s.modeTransition.targetPos ≠ target)
    (hanim : ¬(s.mapped = true ∧ s.modeTransition.duration ≠ 0 ∧
        s.transitionType ≠ HdyLeafletTransitionType.none ∧ s.enableAnimations = true)) :
    (hdy_leaflet_start_mode_transition s target).modeTransition.currentPos = target := by
  simp only [hdy_leaflet_start_mode_transition]
  rw [if_neg hne]
  rw [if_neg]
  · exact set_position_currentPos _ _
  · intro h
    have e := stop_child_transition_env ({ s with modeTransition.targetPos := target })
    exact hanim (by simpa [e.1, e.2.1, e.2.2.1, e.2.2.2.1] using h)

lemma start_mode_transition_self (s : HdyLeaflet) (target : ℚ)
    (h : target = s.modeTransition.targetPos) :
    hdy_leaflet_start_mode_transition s target = s := by
  simp only [hdy_leaflet_start_mode_transition]
  rw [if_pos h.symm]

/-- Claim C8: during an active gesture, hdy_leaflet_update_swipe sets the
child transition progress to the absolute value of the delivered value and
immediately applies it through hdy_leaflet_child_progress_updated. -/
theorem hdy_leaflet_update_swipe_abs (s : HdyLeaflet) (value : ℚ)
    (hg : s.childTransition.isGestureActive = true) :
    (hdy_leaflet_update_swipe s value).childTransition.progress = |value| ∧
    hdy_leaflet_update_swipe s value =
      hdy_leaflet_child_progress_updated { s with childTransition.progress := |value| } := by
  refine ⟨?_, rfl⟩
  have h1 : ({ s with childTransition.progress := |value| } : HdyLeaflet).childTransition.isGestureActive = true := by
    simpa using hg
  show (hdy_leaflet_child_progress_updated
    { s with childTransition.progress := |value| }).childTransition.progress = |value|
  rw [child_progress_updated_gesture _ h1, move_resize_bin_window_childTransition]

/-- Claim C3, amended part: starting a mode transition towards a new target
always leaves the child-transition tick callback unscheduled, and starting a
child transition while the mode-transition tick callback is active never
leaves the child-transition tick callback scheduled. -/
theorem hdy_leaflet_tick_callbacks_functions (s : HdyLeaflet) :
    (∀ target, target ≠ s.modeTransition.targetPos →
      (hdy_leaflet_start_mode_transition s target).childTransition.tickScheduled = false) ∧
    (∀ ttype tdur tdir, s.modeTransition.tickScheduled = true →
      (hdy_leaflet_start_child_transition s ttype tdur tdir).childTransition.tickScheduled = false) := by
  constructor
  · intro target hne
    simp only [hdy_leaflet_start_mode_transition]
    rw [if_neg (fun h => hne h.symm)]
    split
    · split <;> simp [stop_child_tickScheduled]
    · rw [set_position_childTransition, stop_child_tickScheduled]
  · intro ttype tdur tdir hmode
    simp only [hdy_leaflet_start_child_transition]
    rw [child_progress_updated_tickScheduled]
    rw [if_neg]
    · simp only [hdy_leaflet_unschedule_child_ticks]
      split <;> simp_all
    · intro h
      rw [hmode] at h
      simp at h

/-- Claim C6: when the folded state changes, the mode transition target
becomes 0 when folding and 1 when unfolding; when the widget is unmapped, the
duration is zero, the transition type is NONE or animations are disabled, the
current position jumps straight to the target; requesting the current target
again is a no-op. -/
theorem hdy_leaflet_set_folded_mode (s : HdyLeaflet) (folded : Bool)
    (hne : s.folded ≠ folded) :
    (hdy_leaflet_set_folded s folded).modeTransition.targetPos =
      (if folded then (0:ℚ) else 1) ∧
    ((s.modeTransition.targetPos ≠ (if folded then (0:ℚ) else 1) ∧
        ¬(s.mapped = true ∧ s.modeTransition.duration ≠ 0 ∧
          s.transitionType ≠ HdyLeafletTransitionType.none ∧ s.enableAnimations = true)) →
      (hdy_leaflet_set_folded s folded).modeTransition.currentPos =
        (if folded then (0:ℚ) else 1)) ∧
    (∀ target, target = s.modeTransition.targetPos →
      hdy_leaflet_start_mode_transition s target = s) := by
  refine ⟨?_, ?_, fun target h => start_mode_transition_self s target h⟩
  · simp only [hdy_leaflet_set_folded]
    rw [if_neg hne]
    cases folded <;> simp [start_mode_transition_targetPos]
  · intro ⟨h1, h2⟩
    simp only [hdy_leaflet_set_folded]
    rw [if_neg hne]
    cases folded <;>
      simp_all [start_mode_transition_currentPos_direct]

lemma move_resize_bin_window_eq (s : HdyLeaflet) :
    ∃ b, move_resize_bin_window s = { s with moveBinWindowRequest := b } := by
  simp only [move_resize_bin_window]
  split
  · exact ⟨false, rfl⟩
  · exact ⟨s.moveBinWindowRequest, rfl⟩

lemma child_progress_updated_not_after (s : HdyLeaflet)
    (h : s.childTransition.tracker ≠ .after) :
    hdy_leaflet_child_progress_updated s = move_resize_bin_window s := by
  obtain ⟨b, hb⟩ := move_resize_bin_window_eq s
  simp only [hdy_leaflet_child_progress_updated, hb]
  rw [if_neg (by simp [h])]

lemma child_progress_updated_restore (s : HdyLeaflet) (v lv : Nat)
    (hg : s.childTransition.isGestureActive = false)
    (ht : s.childTransition.tracker = .after)
    (hc : s.childTransition.isCancelled = true)
    (hv : s.visibleChild = some v) (hlv : s.lastVisibleChild = some lv) (hne : lv ≠ v) :
    (hdy_leaflet_child_progress_updated s).visibleChild = some lv ∧
    (hdy_leaflet_child_progress_updated s).lastVisibleChild = none ∧
    (s.folded = true → ∀ c ∈ (hdy_leaflet_child_progress_updated s).children,
      (c.id = lv → c.childVisible = true) ∧ (c.id = v → c.childVisible = false)) := by
  obtain ⟨b, hb⟩ := move_resize_bin_window_eq s
  simp only [hdy_leaflet_child_progress_updated, hb]
  rw [if_pos (by simp [hg, ht])]
  simp only [hc, if_true, hlv, hv, gtk_widget_set_child_visible, mapChildren]
  cases hf : s.folded with
  | false => simp [hlv]
  | true =>
    simp only [if_pos rfl, List.map_map]
    refine ⟨by simp [hlv], by simp, ?_⟩
    intro _ c hmem
    obtain ⟨c0, _, rfl⟩ := List.mem_map.mp hmem
    by_cases h0 : c0.id = lv <;> by_cases h1 : c0.id = v <;>
      simp [h0, h1, hne, Ne.symm hne]

lemma childTransition_set_tracker_self (ct : ChildTransition) (h : ct.tracker = .after) :
    ({ ct with tracker := GtkProgressState.after } : ChildTransition) = ct := by
  cases ct
  simp_all

lemma childTransition_set_tick_self (ct : ChildTransition) (h : ct.tickScheduled = true) :
    ({ ct with tickScheduled := true } : ChildTransition) = ct := by
  cases ct
  simp_all

lemma schedule_child_ticks_eq (s : HdyLeaflet) :
    hdy_leaflet_schedule_child_ticks s = { s with childTransition.tickScheduled := true } := by
  simp only [hdy_leaflet_schedule_child_ticks]
  split
  · rfl
  · rename_i h
    rw [childTransition_set_tick_self s.childTransition (by simpa using h)]

lemma child_progress_updated_tracker (s : HdyLeaflet) :
    (hdy_leaflet_child_progress_updated s).childTransition.tracker =
      s.childTransition.tracker := by
  simp only [hdy_leaflet_child_progress_updated, move_resize_bin_window,
    gtk_widget_set_child_visible, mapChildren]
  repeat' split
  all_goals rfl

lemma child_transition_cb_ends_eq (s : HdyLeaflet) (ease : ℚ)
    (hskip : s.childTransition.firstFrameSkipped = true) :
    ∃ x : HdyLeaflet,
      (hdy_leaflet_child_transition_cb s ease true).1 =
        { hdy_leaflet_child_progress_updated x with childTransition.tickScheduled := false } ∧
      x.childTransition.isGestureActive = s.childTransition.isGestureActive ∧
      x.childTransition.tracker = .after ∧
      x.childTransition.isCancelled = s.childTransition.isCancelled ∧
      x.visibleChild = s.visibleChild ∧ x.lastVisibleChild = s.lastVisibleChild ∧
      x.folded = s.folded ∧ x.children = s.children := by
  simp only [hdy_leaflet_child_transition_cb]
  rw [if_pos hskip]
  split
  · apply Exists.intro
      { s with
        childTransition.tracker :=
          gtk_progress_tracker_finish
            (gtk_progress_tracker_advance_frame s.childTransition.tracker true)
        childTransition.progress :=
          hdy_lerp s.childTransition.endProgress s.childTransition.startProgress ease }
    refine ⟨?_, by simp, by simp [gtk_progress_tracker_finish], by simp, by simp, by simp,
      by simp, by simp⟩
    rw [if_pos (show _ = GtkProgressState.after by
      rw [child_progress_updated_tracker]
      simp [gtk_progress_tracker_finish])]
  · apply Exists.intro
      { s with
        childTransition.tracker :=
          gtk_progress_tracker_advance_frame s.childTransition.tracker true
        childTransition.progress :=
          hdy_lerp s.childTransition.endProgress s.childTransition.startProgress ease }
    refine ⟨?_, by simp, by simp [gtk_progress_tracker_advance_frame], by simp, by simp,
      by simp, by simp, by simp⟩
    rw [if_pos (show _ = GtkProgressState.after by
      rw [child_progress_updated_tracker]
      simp [gtk_progress_tracker_advance_frame])]

lemma child_transition_cb_ends_restore (s : HdyLeaflet) (ease : ℚ) (v lv : Nat)
    (hskip : s.childTransition.firstFrameSkipped = true)
    (hg : s.childTransition.isGestureActive = false)
    (hc : s.childTransition.isCancelled = true)
    (hv : s.visibleChild = some v) (hlv : s.lastVisibleChild = some lv) (hne : lv ≠ v) :
    (hdy_leaflet_child_transition_cb s ease true).1.visibleChild = some lv ∧
    (hdy_leaflet_child_transition_cb s ease true).1.lastVisibleChild = none ∧
    (s.folded = true → ∀ c ∈ (hdy_leaflet_child_transition_cb s ease true).1.children,
      (c.id = lv → c.childVisible = true) ∧ (c.id = v → c.childVisible = false)) := by
  obtain ⟨x, hx, f1, f2, f3, f4, f5, f6, f7⟩ := child_transition_cb_ends_eq s ease hskip
  have h1 := child_progress_updated_restore x v lv (f1.trans hg) f2 (f3.trans hc)
    (f4.trans hv) (f5.trans hlv) hne
  rw [hx]
  exact ⟨h1.1, h1.2.1, fun hf => h1.2.2 (f6.trans hf)⟩

lemma child_progress_updated_isCancelled (s : HdyLeaflet) :
    (hdy_leaflet_child_progress_updated s).childTransition.isCancelled =
      s.childTransition.isCancelled := by
  simp only [hdy_leaflet_child_progress_updated, move_resize_bin_window,
    gtk_widget_set_child_visible, mapChildren]
  repeat' split
  all_goals rfl

lemma schedule_child_ticks_env (s : HdyLeaflet) :
    (hdy_leaflet_schedule_child_ticks s).childTransition.tickScheduled = true ∧
    (hdy_leaflet_schedule_child_ticks s).childTransition.isGestureActive =
      s.childTransition.isGestureActive ∧
    (hdy_leaflet_schedule_child_ticks s).childTransition.isCancelled =
      s.childTransition.isCancelled ∧
    (hdy_leaflet_schedule_child_ticks s).childTransition.firstFrameSkipped =
      s.childTransition.firstFrameSkipped ∧
    (hdy_leaflet_schedule_child_ticks s).childTransition.endProgress =
      s.childTransition.endProgress ∧
    (hdy_leaflet_schedule_child_ticks s).visibleChild = s.visibleChild ∧
    (hdy_leaflet_schedule_child_ticks s).lastVisibleChild = s.lastVisibleChild ∧
    (hdy_leaflet_schedule_child_ticks s).folded = s.folded ∧
    (hdy_leaflet_schedule_child_ticks s).children = s.children ∧
    (hdy_leaflet_schedule_child_ticks s).enableAnimations = s.enableAnimations ∧
    (hdy_leaflet_schedule_child_ticks s).transitionType = s.transitionType := by
  simp only [hdy_leaflet_schedule_child_ticks]
  split <;> simp_all

lemma endSwipeSettle_env (s : HdyLeaflet) (d : Int) :
    (endSwipeSettle s d).childTransition.isGestureActive =
      s.childTransition.isGestureActive ∧
    (endSwipeSettle s d).childTransition.isCancelled = s.childTransition.isCancelled ∧
    (endSwipeSettle s d).childTransition.firstFrameSkipped =
      s.childTransition.firstFrameSkipped ∧
    (endSwipeSettle s d).childTransition.tickScheduled =
      s.childTransition.tickScheduled ∧
    (endSwipeSettle s d).visibleChild = s.visibleChild ∧
    (endSwipeSettle s d).lastVisibleChild = s.lastVisibleChild ∧
    (endSwipeSettle s d).folded = s.folded ∧
    (endSwipeSettle s d).children = s.children ∧
    (endSwipeSettle s d).childTransition.tracker =
      (if s.enableAnimations = true ∧ d ≠ 0 ∧
          s.transitionType ≠ HdyLeafletTransitionType.none
       then GtkProgressState.during else GtkProgressState.after) := by
  simp only [endSwipeSettle]
  split
  · rename_i h
    simp_all [gtk_progress_tracker_start]
  · rename_i h
    simp_all [gtk_progress_tracker_finish]

lemma end_swipe_active_eq (s : HdyLeaflet) (d : Int) (t : ℚ)
    (hg : s.childTransition.isGestureActive = true) :
    hdy_leaflet_end_swipe s d t =
      hdy_leaflet_child_progress_updated
        { endSwipeSettle (hdy_leaflet_schedule_child_ticks (endSwipePrepare s t)) d
          with childTransition.isGestureActive := false } := by
  simp only [hdy_leaflet_end_swipe]
  rw [if_neg (by simp [hg])]

lemma end_swipe_zero_state (s : HdyLeaflet) (d : Int)
    (hg : s.childTransition.isGestureActive = true) :
    ∃ x : HdyLeaflet,
      hdy_leaflet_end_swipe s d 0 = hdy_leaflet_child_progress_updated x ∧
      x.childTransition.isGestureActive = false ∧
      x.childTransition.isCancelled = true ∧
      x.childTransition.firstFrameSkipped = true ∧
      x.childTransition.tickScheduled = true ∧
      x.childTransition.tracker =
        (if s.enableAnimations = true ∧ d ≠ 0 ∧
            s.transitionType ≠ HdyLeafletTransitionType.none
         then GtkProgressState.during else GtkProgressState.after) ∧
      x.visibleChild = s.visibleChild ∧
      x.lastVisibleChild = s.lastVisibleChild ∧
      x.folded = s.folded ∧ x.children = s.children := by
  obtain ⟨t1, t2, t3, t4, t5, t6, t7, t8, t9, t10, t11⟩ :=
    schedule_child_ticks_env (endSwipePrepare s 0)
  obtain ⟨e1, e2, e3, e4, e5, e6, e7, e8, e9⟩ :=
    endSwipeSettle_env (hdy_leaflet_schedule_child_ticks (endSwipePrepare s 0)) d
  refine ⟨_, end_swipe_active_eq s d 0 hg, rfl,
    e2.trans (t3.trans (by simp [endSwipePrepare])),
    e3.trans (t4.trans (by simp [endSwipePrepare])),
    e4.trans t1,
    e9.trans ?_,
    e5.trans (t6.trans (by simp [endSwipePrepare])),
    e6.trans (t7.trans (by simp [endSwipePrepare])),
    e7.trans (t8.trans (by simp [endSwipePrepare])),
    e8.trans (t9.trans (by simp [endSwipePrepare]))⟩
  rw [t10, t11]
  simp [endSwipePrepare]

/-- C2: ending a swipe at target progress 0 marks the child transition
cancelled; when the transition reaches its final state the visible child is
restored to the previously visible child, and when folded the previous child
is made child-visible again while the interrupted target child is hidden.
Without animation the final state is reached inside end_swipe itself; with
animation the tick callback is scheduled and its ending frame restores. -/
theorem hdy_leaflet_end_swipe_cancel (s : HdyLeaflet) (d : Int) (v lv : Nat)
    (hg : s.childTransition.isGestureActive = true)
    (hv : s.visibleChild = some v) (hlv : s.lastVisibleChild = some lv)
    (hne : lv ≠ v) :
    (hdy_leaflet_end_swipe s d 0).childTransition.isCancelled = true ∧
    (¬ (s.enableAnimations = true ∧ d ≠ 0 ∧
        s.transitionType ≠ HdyLeafletTransitionType.none) →
      (hdy_leaflet_end_swipe s d 0).visibleChild = some lv ∧
      (hdy_leaflet_end_swipe s d 0).lastVisibleChild = none ∧
      (s.folded = true → ∀ c ∈ (hdy_leaflet_end_swipe s d 0).children,
        (c.id = lv → c.childVisible = true) ∧ (c.id = v → c.childVisible = false))) ∧
    ((s.enableAnimations = true ∧ d ≠ 0 ∧
        s.transitionType ≠ HdyLeafletTransitionType.none) →
      (hdy_leaflet_end_swipe s d 0).visibleChild = some v ∧
      (hdy_leaflet_end_swipe s d 0).childTransition.tickScheduled = true ∧
      ∀ ease : ℚ,
        (hdy_leaflet_child_transition_cb (hdy_leaflet_end_swipe s d 0)
          ease true).1.visibleChild = some lv ∧
        (hdy_leaflet_child_transition_cb (hdy_leaflet_end_swipe s d 0)
          ease true).1.lastVisibleChild = none ∧
        (s.folded = true →
          ∀ c ∈ (hdy_leaflet_child_transition_cb (hdy_leaflet_end_swipe s d 0)
            ease true).1.children,
            (c.id = lv → c.childVisible = true) ∧
            (c.id = v → c.childVisible = false))) := by
  obtain ⟨x, hx, x1, x2, x3, x4, x5, x6, x7, x8, x9⟩ := end_swipe_zero_state s d hg
  rw [hx]
  refine ⟨(child_progress_updated_isCancelled x).trans x2, ?_, ?_⟩
  · intro hcond
    have ht : x.childTransition.tracker = .after := by rw [x5, if_neg hcond]
    have h1 := child_progress_updated_restore x v lv x1 ht x2 (x6.trans hv)
      (x7.trans hlv) hne
    exact ⟨h1.1, h1.2.1, fun hf => h1.2.2 (x8.trans hf)⟩
  · intro hcond
    have ht : x.childTransition.tracker = .during := by rw [x5, if_pos hcond]
    have hE : hdy_leaflet_child_progress_updated x = move_resize_bin_window x :=
      child_progress_updated_not_after x (by simp [ht])
    obtain ⟨b, hb⟩ := move_resize_bin_window_eq x
    rw [hE, hb]
    refine ⟨x6.trans hv, x4, ?_⟩
    intro ease
    have h1 := child_transition_cb_ends_restore
      { x with moveBinWindowRequest := b } ease v lv x3 x1 x2 (x6.trans hv)
      (x7.trans hlv) hne
    exact ⟨h1.1, h1.2.1, fun hf => h1.2.2 (x8.trans hf)⟩

/-- Witness for C2 at a concrete folded two-child state with an active
gesture: the hypotheses hold and the cancelled swipe restores child 0. -/
theorem hdy_leaflet_end_swipe_cancel_witness :
    c2WitnessState.childTransition.isGestureActive = true ∧
    c2WitnessState.visibleChild = some 1 ∧
    c2WitnessState.lastVisibleChild = some 0 ∧
    (0 : Nat) ≠ 1 ∧
    (hdy_leaflet_end_swipe c2WitnessState 200 0).childTransition.isCancelled = true ∧
    (hdy_leaflet_end_swipe c2WitnessState 200 0).visibleChild = some 0 := by
  have h := hdy_leaflet_end_swipe_cancel c2WitnessState 200 1 0 (by decide) (by decide)
    (by decide) (by decide)
  exact ⟨by decide, by decide, by decide, by decide, h.1, (h.2.1 (by decide)).1⟩

lemma idMapped_refl (s : HdyLeaflet) : IdMapped s s :=
  ⟨fun c => c, fun _ => rfl, by simp, by simp, rfl⟩

lemma idMapped_upd_step (s t u : HdyLeaflet) (h : IdMapped s t)
    (h1 : u.children = t.children) (h2 : u.childrenReversed = t.childrenReversed)
    (h3 : u.nextId = t.nextId) : IdMapped s u := by
  obtain ⟨g, hid, hch, hrev, hn⟩ := h
  exact ⟨g, hid, h1.trans hch, h2.trans hrev, h3.trans hn⟩

lemma idMapped_gwsv_step {s t : HdyLeaflet} (h : IdMapped s t) (wid : Nat) (v : Bool) :
    IdMapped s (gtk_widget_set_child_visible t wid v) := by
  obtain ⟨g, hid, hch, hrev, hn⟩ := h
  refine ⟨(fun c => if c.id = wid then { c with childVisible := v } else c) ∘ g,
    fun c => ?_, ?_, ?_, hn⟩
  · dsimp only [Function.comp]
    split <;> simp [hid]
  · simp only [gtk_widget_set_child_visible, mapChildren, hch, List.map_map]
  · simp only [gtk_widget_set_child_visible, mapChildren, hrev, List.map_map]

lemma idMapped_mrbw_step {s t : HdyLeaflet} (h : IdMapped s t) :
    IdMapped s (move_resize_bin_window t) := by
  simp only [move_resize_bin_window]
  split
  · exact idMapped_upd_step s t _ h rfl rfl rfl
  · exact h

lemma idMapped_sched_step {s t : HdyLeaflet} (h : IdMapped s t) :
    IdMapped s (hdy_leaflet_schedule_child_ticks t) := by
  simp only [hdy_leaflet_schedule_child_ticks]
  split
  · exact idMapped_upd_step s t _ h rfl rfl rfl
  · exact h

lemma idMapped_unsched_step {s t : HdyLeaflet} (h : IdMapped s t) :
    IdMapped s (hdy_leaflet_unschedule_child_ticks t) := by
  simp only [hdy_leaflet_unschedule_child_ticks]
  split
  · exact idMapped_upd_step s t _ h rfl rfl rfl
  · exact h

lemma idMapped_svciHide_step {s t : HdyLeaflet} (h : IdMapped s t) :
    IdMapped s (svciHideLastVisible t) := by
  simp only [svciHideLastVisible]
  split
  · exact idMapped_gwsv_step h _ false
  · exact h

lemma idMapped_svciRecord_step {s t : HdyLeaflet} (h : IdMapped s t) :
    IdMapped s (svciRecordLastVisible t) := by
  simp only [svciRecordLastVisible]
  split
  · split
    · split
      · split
        · exact idMapped_upd_step s t _ h rfl rfl rfl
        · exact idMapped_gwsv_step h _ false
      · exact h
    · exact h
  · exact h

lemma idMapped_svciShow_step {s t : HdyLeaflet} (h : IdMapped s t)
    (nv : Option Nat) : IdMapped s (svciShowNewVisible t nv) := by
  simp only [svciShowNewVisible]
  split
  · exact idMapped_gwsv_step h _ true
  · exact h

lemma idMapped_cpu_step {s t : HdyLeaflet} (h : IdMapped s t) :
    IdMapped s (hdy_leaflet_child_progress_updated t) := by
  have h1 : IdMapped s (move_resize_bin_window t) := idMapped_mrbw_step h
  simp only [hdy_leaflet_child_progress_updated]
  revert h1
  generalize move_resize_bin_window t = t1
  intro h1
  split
  · have h2 : IdMapped s { t1 with childTransition.hasLastVisibleSurface := false } :=
      idMapped_upd_step s t1 _ h1 rfl rfl rfl
    revert h2
    generalize ({ t1 with childTransition.hasLastVisibleSurface := false } : HdyLeaflet) = t2
    intro h2
    split
    · split
      · rename_i lv _
        split
        · split
          · rename_i v _
            refine idMapped_upd_step s
              (gtk_widget_set_child_visible (gtk_widget_set_child_visible t2 lv true) v false)
              _ ?_ rfl rfl rfl
            exact idMapped_gwsv_step (idMapped_gwsv_step h2 lv true) v false
          · refine idMapped_upd_step s (gtk_widget_set_child_visible t2 lv true)
              _ ?_ rfl rfl rfl
            exact idMapped_gwsv_step h2 lv true
        · exact idMapped_upd_step s t2 _ h2 rfl rfl rfl
      · exact h2
    · split
      · rename_i lv _
        split
        · refine idMapped_upd_step s (gtk_widget_set_child_visible t2 lv false)
            _ ?_ rfl rfl rfl
          exact idMapped_gwsv_step h2 lv false
        · exact idMapped_upd_step s t2 _ h2 rfl rfl rfl
      · exact h2
  · exact h1

lemma idMapped_map_step {s t : HdyLeaflet} (h : IdMapped s t)
    {f : HdyLeafletChildInfo → HdyLeafletChildInfo} {u : HdyLeaflet}
    (h1 : u.children = t.children.map f)
    (h2 : u.childrenReversed = t.childrenReversed.map f)
    (h3 : u.nextId = t.nextId) (hf : ∀ c, (f c).id = c.id) : IdMapped s u := by
  obtain ⟨g, hid, hch, hrev, hn⟩ := h
  refine ⟨f ∘ g, fun c => ?_, ?_, ?_, h3.trans hn⟩
  · dsimp only [Function.comp]
    rw [hf, hid]
  · rw [h1, hch, List.map_map]
  · rw [h2, hrev, List.map_map]

lemma idMapped_stop_step {s t : HdyLeaflet} (h : IdMapped s t) :
    IdMapped s (hdy_leaflet_stop_child_transition t) := by
  simp only [hdy_leaflet_stop_child_transition, hdy_leaflet_unschedule_child_ticks,
    gtk_widget_set_child_visible, mapChildren]
  repeat' split
  all_goals first
    | exact idMapped_upd_step s t _ h rfl rfl rfl
    | exact idMapped_map_step h rfl rfl rfl (fun c => by split <;> rfl)

lemma idMapped_start_child_step {s t : HdyLeaflet} (h : IdMapped s t)
    (tt : HdyLeafletTransitionType) (td : Nat) (dir : GtkPanDirection) :
    IdMapped s (hdy_leaflet_start_child_transition t tt td dir) := by
  simp only [hdy_leaflet_start_child_transition, hdy_leaflet_schedule_child_ticks,
    hdy_leaflet_unschedule_child_ticks]
  repeat' split
  all_goals refine idMapped_cpu_step ?_
  all_goals exact idMapped_upd_step s t _ h rfl rfl rfl

lemma idMapped_svciStart_step {s t : HdyLeaflet} (h : IdMapped s t)
    (nv : Option Nat) (tt : HdyLeafletTransitionType) (td : Nat) :
    IdMapped s (svciStartTransition t nv tt td) := by
  simp only [svciStartTransition]
  split
  · exact idMapped_start_child_step h _ _ _
  · exact h

lemma idMapped_svci (s : HdyLeaflet) (nv : Option Nat)
    (tt : HdyLeafletTransitionType) (td : Nat) :
    IdMapped s (set_visible_child_info s nv tt td) := by
  simp only [set_visible_child_info]
  split
  · exact idMapped_refl s
  · refine idMapped_svciStart_step ?_ _ _ _
    refine idMapped_svciShow_step ?_ _
    refine idMapped_upd_step s (svciRecordLastVisible { svciHideLastVisible s with lastVisibleChild := none, childTransition.hasLastVisibleSurface := false }) _ ?_ rfl rfl rfl
    refine idMapped_svciRecord_step ?_
    refine idMapped_upd_step s (svciHideLastVisible s) _ ?_ rfl rfl rfl
    exact idMapped_svciHide_step (idMapped_refl s)

lemma wf_of_idMapped {s t : HdyLeaflet} (h : IdMapped s t)
    (hw : LeafletChildListWF s) : LeafletChildListWF t := by
  obtain ⟨g, hid, hch, hrev, hn⟩ := h
  obtain ⟨w1, w2, w3⟩ := hw
  refine ⟨?_, ?_, ?_⟩
  · rw [hch, hrev, w1, List.map_reverse]
  · rw [hch, List.map_map]
    have : s.children.map ((fun c => c.id) ∘ g) = s.children.map (fun c => c.id) :=
      List.map_congr_left (fun c _ => hid c)
    rw [this]
    exact w2
  · intro c hc
    rw [hch] at hc
    obtain ⟨c0, hc0, rfl⟩ := List.mem_map.mp hc
    rw [hn, hid]
    exact w3 c0 hc0

lemma erasePEqFilter {α : Type} (p : α → Bool) (l : List α)
    (hc : l.countP p ≤ 1) : l.eraseP p = l.filter (fun a => ! p a) := by
  induction l with
  | nil => rfl
  | cons a t ih =>
    by_cases hp : p a
    · rw [List.eraseP_cons_of_pos hp, List.filter_cons]
      have h0 : t.countP p = 0 := by
        have := hc
        rw [List.countP_cons_of_pos p _ hp] at this
        omega
      have hnone : ∀ x ∈ t, ¬ p x := by
        intro x hx
        exact by simpa using List.countP_eq_zero.mp h0 x hx
      rw [if_neg (by simp [hp])]
      rw [List.filter_eq_self.mpr (fun x hx => by simp [hnone x hx])]
    · rw [List.eraseP_cons_of_neg (by simp [hp]), List.filter_cons]
      rw [if_pos (by simp [hp])]
      rw [ih (by rw [List.countP_cons_of_neg p _ (by simp [hp])] at hc; exact hc)]

lemma erasePReverse {α : Type} (p : α → Bool) (l : List α)
    (hc : l.countP p ≤ 1) : l.reverse.eraseP p = (l.eraseP p).reverse := by
  have hcr : l.reverse.countP p ≤ 1 := by
    rw [List.countP_eq_length_filter, List.filter_reverse, List.length_reverse,
      ← List.countP_eq_length_filter]
    exact hc
  rw [erasePEqFilter p _ hcr, erasePEqFilter p _ hc, List.filter_reverse]

lemma countPIdLeOne (l : List HdyLeafletChildInfo) (wid : Nat)
    (h : (l.map (fun c => c.id)).Nodup) :
    l.countP (fun c => c.id == wid) ≤ 1 := by
  have h1 : l.countP (fun c => c.id == wid) =
      (l.map (fun c => c.id)).countP (fun i => i == wid) := by
    rw [List.countP_map]
    rfl
  rw [h1, ← List.count]
  exact List.nodup_iff_count_le_one.mp h wid

/-- C10: children_reversed stays the exact reverse of children: adding a
child appends to children and prepends to children_reversed, removing a
child erases it from both lists, and the container traversal rebuilds
children_reversed as the reverse copy, so each child-list-modifying
operation preserves the reversal invariant (together with distinctness and
freshness of the modelled pointers). -/
theorem hdy_leaflet_children_reversed_invariant (s : HdyLeaflet)
    (w : GtkWidgetParams) (wid : Nat) (h : LeafletChildListWF s) :
    LeafletChildListWF (hdy_leaflet_add s w) ∧
    LeafletChildListWF (hdy_leaflet_remove s wid) ∧
    LeafletChildListWF (hdy_leaflet_forall s) := by
  obtain ⟨w1, w2, w3⟩ := h
  refine ⟨?_, ?_, ?_⟩
  · have hs1 : LeafletChildListWF { s with children := s.children ++ [newChildInfo s w], childrenReversed := newChildInfo s w :: s.childrenReversed, nextId := s.nextId + 1 } := by
      refine ⟨?_, ?_, ?_⟩
      · show newChildInfo s w :: s.childrenReversed = (s.children ++ [newChildInfo s w]).reverse
        simp [w1, List.reverse_append]
      · show ((s.children ++ [newChildInfo s w]).map (fun c => c.id)).Nodup
        rw [List.map_append, List.nodup_append]
        refine ⟨w2, List.nodup_singleton _, ?_⟩
        intro a ha hb
        obtain ⟨c, hc, rfl⟩ := List.mem_map.mp ha
        simp only [List.map_cons, List.map_nil, List.mem_cons, List.not_mem_nil,
          or_false] at hb
        have := w3 c hc
        simp only [newChildInfo] at hb
        omega
      · intro c hc
        show c.id < s.nextId + 1
        rcases List.mem_append.mp hc with hc | hc
        · exact Nat.lt_succ_of_lt (w3 c hc)
        · simp only [List.mem_singleton] at hc
          subst hc
          simp [newChildInfo]
    simp only [hdy_leaflet_add]
    split
    · exact wf_of_idMapped (idMapped_svci _ _ _ _) hs1
    · exact hs1
  · simp only [hdy_leaflet_remove]
    split
    · exact ⟨w1, w2, w3⟩
    · have hs1 : LeafletChildListWF { s with children := s.children.eraseP (fun c => c.id == wid), childrenReversed := s.childrenReversed.eraseP (fun c => c.id == wid) } := by
        refine ⟨?_, ?_, ?_⟩
        · show s.childrenReversed.eraseP (fun c => c.id == wid) =
            (s.children.eraseP (fun c => c.id == wid)).reverse
          rw [w1]
          exact erasePReverse _ s.children (countPIdLeOne s.children wid w2)
        · exact List.Nodup.sublist ((List.eraseP_sublist _).map _) w2
        · intro c hc
          exact w3 c (List.mem_of_mem_eraseP hc)
      split
      · exact wf_of_idMapped (idMapped_svci _ _ _ _) hs1
      · exact hs1
  · exact ⟨rfl, w2, w3⟩

/-- Witness for C10 at the freshly initialised leaflet: the well-formedness
hypothesis holds and is preserved by add, remove and forall. -/
theorem hdy_leaflet_children_reversed_invariant_witness :
    LeafletChildListWF hdy_leaflet_default ∧
    (LeafletChildListWF (hdy_leaflet_add hdy_leaflet_default (mkWidgetParams 1 1)) ∧
     LeafletChildListWF (hdy_leaflet_remove hdy_leaflet_default 0) ∧
     LeafletChildListWF (hdy_leaflet_forall hdy_leaflet_default)) :=
  ⟨⟨rfl, by simp [hdy_leaflet_default], by simp [hdy_leaflet_default]⟩,
   hdy_leaflet_children_reversed_invariant hdy_leaflet_default
    (mkWidgetParams 1 1) 0
    ⟨rfl, by simp [hdy_leaflet_default], by simp [hdy_leaflet_default]⟩⟩

lemma foldlMaxOut (t : List Int) : ∀ a c : Int, t.foldl max (max a c) = max (t.foldl max a) c := by
  induction t with
  | nil => intro a c; rfl
  | cons d u ih =>
    intro a c
    simp only [List.foldl_cons]
    rw [sup_right_comm a c d, ih]

lemma foldlMaxReverse (l : List Int) (a : Int) : l.reverse.foldl max a = l.foldl max a := by
  induction l generalizing a with
  | nil => rfl
  | cons c t ih =>
    simp only [List.reverse_cons, List.foldl_append, List.foldl_cons, List.foldl_nil]
    rw [ih a, ← foldlMaxOut]

lemma foldAccW (l : List HdyLeafletChildInfo) (hw : ∀ c ∈ l, c.hasWidget = true) :
    ∀ i : Int × Int × Int,
    l.foldl (fun (a : Int × Int × Int) c =>
        if ¬ c.hasWidget then a
        else (a.1 + c.nat.width, max a.2.1 c.nat.width, a.2.2 + 1)) i =
      (i.1 + (l.map (fun c => c.nat.width)).sum,
       (l.map (fun c => c.nat.width)).foldl max i.2.1,
       i.2.2 + l.length) := by
  induction l with
  | nil => intro i; simp
  | cons c t ih =>
    intro i
    simp only [List.foldl_cons, List.map_cons, List.sum_cons, List.length_cons]
    rw [if_neg (by simp [hw c (by simp)])]
    rw [ih (fun x hx => hw x (by simp [hx]))]
    refine Prod.ext ?_ (Prod.ext ?_ ?_)
    · dsimp only
      omega
    · rfl
    · dsimp only
      omega

lemma foldAccH (l : List HdyLeafletChildInfo) (hw : ∀ c ∈ l, c.hasWidget = true) :
    ∀ i : Int × Int × Int,
    l.foldl (fun (a : Int × Int × Int) c =>
        if ¬ c.hasWidget then a
        else (a.1 + c.nat.height, max a.2.1 c.nat.height, a.2.2 + 1)) i =
      (i.1 + (l.map (fun c => c.nat.height)).sum,
       (l.map (fun c => c.nat.height)).foldl max i.2.1,
       i.2.2 + l.length) := by
  induction l with
  | nil => intro i; simp
  | cons c t ih =>
    intro i
    simp only [List.foldl_cons, List.map_cons, List.sum_cons, List.length_cons]
    rw [if_neg (by simp [hw c (by simp)])]
    rw [ih (fun x hx => hw x (by simp [hx]))]
    refine Prod.ext ?_ (Prod.ext ?_ ?_)
    · dsimp only
      omega
    · rfl
    · dsimp only
      omega

lemma start_mode_transition_folded (s : HdyLeaflet) (t : ℚ) :
    (hdy_leaflet_start_mode_transition s t).folded = s.folded := by
  simp only [hdy_leaflet_start_mode_transition]
  split
  · rfl
  · split
    · split <;> exact (stop_child_transition_env _).2.2.2.2.1
    · exact ((set_position_env _ _).2.2.2).trans ((stop_child_transition_env _).2.2.2.2.1)

lemma set_folded_folded (s : HdyLeaflet) (f : Bool) :
    (hdy_leaflet_set_folded s f).folded = f := by
  simp only [hdy_leaflet_set_folded]
  split
  · rename_i h
    exact h
  · split <;> exact start_mode_transition_folded _ _

lemma size_allocate_folded_proj (s : HdyLeaflet) (a : GtkAllocation) :
    (hdy_leaflet_size_allocate_folded s a).folded = s.folded := by
  simp only [hdy_leaflet_size_allocate_folded]
  split
  · rfl
  · split
    · rfl
    · rename_i vid hv vc hc
      split
      · rfl
      · split
        · rfl
        · split
          · simp only [foldedAllocateNone, mapChildren]
            rfl
          · simp only [foldedAllocateTransition, commitDirected, foldedAllocateVisible,
              foldedStoreSurfaces]
            repeat' split
            all_goals rfl

lemma unfoldedStoreDistances_folded (s : HdyLeaflet) (vc : HdyLeafletChildInfo)
    (a : GtkAllocation) : (unfoldedStoreDistances s vc a).folded = s.folded := by
  simp only [unfoldedStoreDistances]
  split <;> rfl

lemma unfoldedShiftStart_folded (s : HdyLeaflet) (vid : Nat) (p : Int) :
    (unfoldedShiftStart s vid p).folded = s.folded := by
  simp only [unfoldedShiftStart, mapChildren]
  split <;> rfl

lemma unfoldedShiftEnd_folded (s : HdyLeaflet) (vid : Nat) (p : Int) :
    (unfoldedShiftEnd s vid p).folded = s.folded := by
  simp only [unfoldedShiftEnd, mapChildren]
  split <;> rfl

lemma unfoldedApplyAnimations_folded (s : HdyLeaflet) (vid : Nat) (a : GtkAllocation) :
    (unfoldedApplyAnimations s vid a).folded = s.folded := by
  simp only [unfoldedApplyAnimations]
  split
  · rfl
  · exact (unfoldedShiftEnd_folded _ _ _).trans
      ((unfoldedShiftStart_folded _ _ _).trans (unfoldedStoreDistances_folded _ _ _))

lemma size_allocate_unfolded_proj (s : HdyLeaflet) (a : GtkAllocation) :
    (hdy_leaflet_size_allocate_unfolded s a).folded = s.folded := by
  simp only [hdy_leaflet_size_allocate_unfolded]
  split
  · rfl
  · exact unfoldedApplyAnimations_folded _ _ _

lemma size_allocate_folded_eq (s : HdyLeaflet) (a : GtkAllocation) :
    (hdy_leaflet_size_allocate s a).folded =
      hdy_leaflet_fold_decision
        (sizeAllocatePrepare (if s.realized then move_resize_bin_window s else s)) a := by
  simp only [hdy_leaflet_size_allocate, mapChildren]
  split <;> split
  · rw [size_allocate_folded_proj, set_folded_folded]
  · rw [size_allocate_unfolded_proj, set_folded_folded]
  · rw [size_allocate_folded_proj, set_folded_folded]
  · rw [size_allocate_unfolded_proj, set_folded_folded]

lemma fold_prep_mrbw (s : HdyLeaflet) (a : GtkAllocation) :
    hdy_leaflet_fold_decision (sizeAllocatePrepare (move_resize_bin_window s)) a =
      hdy_leaflet_fold_decision (sizeAllocatePrepare s) a := by
  simp only [move_resize_bin_window]
  split
  · simp only [hdy_leaflet_fold_decision, sizeAllocatePrepare, mapChildren,
      get_directed_children]
  · rfl

lemma mem_map_hasWidget (l : List HdyLeafletChildInfo)
    (f : HdyLeafletChildInfo → HdyLeafletChildInfo)
    (hf : ∀ c, (f c).hasWidget = c.hasWidget)
    (h : ∀ c ∈ l, c.hasWidget = true) : ∀ c ∈ l.map f, c.hasWidget = true := by
  intro c hc
  obtain ⟨c0, h0, rfl⟩ := List.mem_map.mp hc
  rw [hf]
  exact h c0 h0

lemma fold_decision_prepared (s : HdyLeaflet) (a : GtkAllocation)
    (hrev : s.childrenReversed = s.children.reverse)
    (hw : ∀ c ∈ s.children, c.hasWidget = true) :
    hdy_leaflet_fold_decision (sizeAllocatePrepare s) a =
      decide (allocatedMainSize s a < accumulatedNatSize s) := by
  simp only [hdy_leaflet_fold_decision, sizeAllocatePrepare, prepChild, mapChildren,
    get_directed_children, allocatedMainSize, accumulatedNatSize, childNatWidths,
    childNatHeights, hrev, List.map_reverse]
  cases hor : s.orientation with
  | horizontal =>
    by_cases hdir : s.textDirection = GtkTextDirection.rtl
    · simp only [hdir, eq_self_iff_true, true_and, and_true, if_true]
      rw [foldAccW]
      · simp only [List.map_reverse, List.sum_reverse, foldlMaxReverse,
          List.length_reverse, List.length_map, List.map_map, zero_add]
        rfl
      · intro c hc
        rw [List.mem_reverse] at hc
        refine mem_map_hasWidget _ _ ?_ hw c hc
        intro c
        rfl
    · simp only [hdir, eq_self_iff_true, true_and, and_false, false_and, if_false]
      rw [foldAccW]
      · simp only [List.length_map, List.map_map, zero_add]
        rfl
      · exact mem_map_hasWidget _ _ (fun c => rfl) hw
  | vertical =>
    simp only [reduceCtorEq, false_and, if_false]
    rw [foldAccH]
    · simp only [List.length_map, List.map_map, zero_add]
      rfl
    · exact mem_map_hasWidget _ _ (fun c => rfl) hw

/-- C1: size allocation folds the leaflet exactly when the allocated main
size is strictly smaller than the accumulated natural size of the children:
the sum of the natural widths, or the maximum natural width times the number
of children when hhomogeneous-unfolded is set, and symmetrically with
heights for a vertical leaflet.  An allocation equal to the accumulated
size stays unfolded. -/
theorem hdy_leaflet_fold_decision_spec (s : HdyLeaflet) (a : GtkAllocation)
    (hrev : s.childrenReversed = s.children.reverse)
    (hw : ∀ c ∈ s.children, c.hasWidget = true) :
    ((hdy_leaflet_size_allocate s a).folded = true ↔
      allocatedMainSize s a < accumulatedNatSize s) := by
  rw [size_allocate_folded_eq]
  have h1 : hdy_leaflet_fold_decision
      (sizeAllocatePrepare (if s.realized then move_resize_bin_window s else s)) a =
      hdy_leaflet_fold_decision (sizeAllocatePrepare s) a := by
    split
    · exact fold_prep_mrbw s a
    · rfl
  rw [h1, fold_decision_prepared s a hrev hw]
  exact decide_eq_true_iff

/-- Witness for C1: at the two-child state the hypotheses hold, and the
equivalence is settled by the theorem. -/
theorem hdy_leaflet_fold_decision_spec_witness :
    (c1WitnessState.childrenReversed = c1WitnessState.children.reverse ∧
     ∀ c ∈ c1WitnessState.children, c.hasWidget = true) ∧
    ((hdy_leaflet_size_allocate c1WitnessState c1WitnessAlloc).folded = true ↔
      allocatedMainSize c1WitnessState c1WitnessAlloc < accumulatedNatSize c1WitnessState) :=
  ⟨⟨by decide, by decide⟩,
   hdy_leaflet_fold_decision_spec c1WitnessState c1WitnessAlloc (by decide) (by decide)⟩

/-- Witness for C8 at a concrete gesture-active state and value 1. -/
theorem hdy_leaflet_update_swipe_abs_witness :
    c2WitnessState.childTransition.isGestureActive = true ∧
    ((hdy_leaflet_update_swipe c2WitnessState 1).childTransition.progress = |(1:ℚ)| ∧
     hdy_leaflet_update_swipe c2WitnessState 1 =
       hdy_leaflet_child_progress_updated
         { c2WitnessState with childTransition.progress := |(1:ℚ)| }) :=
  ⟨by decide, hdy_leaflet_update_swipe_abs c2WitnessState 1 (by decide)⟩

/-- Witness for the amended C3 statement: at the initial state a new mode
target leaves the child tick unscheduled, and with an active mode tick a
started child transition leaves the child tick unscheduled. -/
theorem hdy_leaflet_tick_callbacks_functions_witness :
    ((2:ℚ) ≠ hdy_leaflet_default.modeTransition.targetPos ∧
     (hdy_leaflet_start_mode_transition hdy_leaflet_default 2).childTransition.tickScheduled
       = false) ∧
    (modeTickState.modeTransition.tickScheduled = true ∧
     (hdy_leaflet_start_child_transition modeTickState
        HdyLeafletTransitionType.slide 1 GtkPanDirection.left).childTransition.tickScheduled
       = false) :=
  ⟨⟨by decide,
    (hdy_leaflet_tick_callbacks_functions hdy_leaflet_default).1 2 (by decide)⟩,
   ⟨by decide,
    (hdy_leaflet_tick_callbacks_functions modeTickState).2
      HdyLeafletTransitionType.slide 1 GtkPanDirection.left (by decide)⟩⟩

/-- Witness for C6: folding the freshly initialised leaflet, whose folded
flag is FALSE, with the hypotheses discharged at that state. -/
theorem hdy_leaflet_set_folded_mode_witness :
    hdy_leaflet_default.folded ≠ true ∧
    ((hdy_leaflet_set_folded hdy_leaflet_default true).modeTransition.targetPos =
        (if true then (0:ℚ) else 1) ∧
     ((hdy_leaflet_default.modeTransition.targetPos ≠ (if true then (0:ℚ) else 1) ∧
         ¬(hdy_leaflet_default.mapped = true ∧
           hdy_leaflet_default.modeTransition.duration ≠ 0 ∧
           hdy_leaflet_default.transitionType ≠ HdyLeafletTransitionType.none ∧
           hdy_leaflet_default.enableAnimations = true)) →
       (hdy_leaflet_set_folded hdy_leaflet_default true).modeTransition.currentPos =
         (if true then (0:ℚ) else 1)) ∧
     (∀ target, target = hdy_leaflet_default.modeTransition.targetPos →
       hdy_leaflet_start_mode_transition hdy_leaflet_default target = hdy_leaflet_default)) :=
  ⟨by decide, hdy_leaflet_set_folded_mode hdy_leaflet_default true (by decide)⟩

lemma saf_none_eq (t : HdyLeaflet) (v : Nat) (vc : HdyLeafletChildInfo)
    (a : GtkAllocation)
    (hv : t.visibleChild = some v)
    (hfind : find_child_info_for_widget t v = some vc)
    (hwid : vc.hasWidget = true) (hgtk : vc.gtkVisible = true)
    (hpos : t.modeTransition.currentPos ≤ 0) :
    hdy_leaflet_size_allocate_folded t a =
      foldedAllocateNone
        (gtk_widget_set_child_visible (foldedHideOthers t v) v true) v a := by
  simp only [hdy_leaflet_size_allocate_folded, hv, hfind]
  rw [if_neg (by simp [hwid]), if_neg (by simp [hgtk]), if_pos]
  exact if_pos hpos

set_option maxHeartbeats 1600000 in
/-- C4: for a folded leaflet whose visible child has a visible widget and in
which no transition is in progress, size allocation leaves exactly the
visible child child-visible, allocated the full rectangle at the origin, and
makes every other child not child-visible. -/
theorem hdy_leaflet_folded_single_visible (s : HdyLeaflet) (a : GtkAllocation)
    (v : Nat) (vc : HdyLeafletChildInfo)
    (hfd : hdy_leaflet_fold_decision (sizeAllocatePrepare s) a = true)
    (hfolded : s.folded = true)
    (hv : s.visibleChild = some v)
    (hfind : find_child_info_for_widget s v = some vc)
    (hwid : vc.hasWidget = true) (hgtk : vc.gtkVisible = true)
    (hpos : s.modeTransition.currentPos = 0)
    (hlast : s.lastVisibleChild = none) :
    ((hdy_leaflet_size_allocate s a).children.map (fun c => c.id) =
       s.children.map (fun c => c.id)) ∧
    (∃ c ∈ (hdy_leaflet_size_allocate s a).children, c.id = v) ∧
    (∀ c ∈ (hdy_leaflet_size_allocate s a).children,
      (c.childVisible = true ↔ c.id = v) ∧
      (c.id = v → c.alloc = ⟨0, 0, a.width, a.height⟩)) := by
  have hb : ∃ b, (if s.realized then move_resize_bin_window s else s) =
      { s with moveBinWindowRequest := b } := by
    split
    · exact move_resize_bin_window_eq s
    · exact ⟨s.moveBinWindowRequest, rfl⟩
  obtain ⟨b, hb⟩ := hb
  have hfind0 : s.children.find? (fun c => c.id == v) = some vc := hfind
  have hT0 : hdy_leaflet_fold_decision
      (sizeAllocatePrepare { s with moveBinWindowRequest := b }) a = true := hfd
  have hTfold : hdy_leaflet_set_folded
      (sizeAllocatePrepare { s with moveBinWindowRequest := b }) true =
      sizeAllocatePrepare { s with moveBinWindowRequest := b } := by
    simp only [hdy_leaflet_set_folded]
    rw [if_pos]
    exact hfolded
  have hfindT : find_child_info_for_widget
      (sizeAllocatePrepare { s with moveBinWindowRequest := b }) v =
      some (prepChild vc) := by
    simp only [find_child_info_for_widget, sizeAllocatePrepare, mapChildren,
      List.find?_map]
    have hpred : ((fun (c : HdyLeafletChildInfo) => c.id == v) ∘ prepChild) =
        (fun (c : HdyLeafletChildInfo) => c.id == v) := rfl
    rw [hpred, hfind0]
    rfl
  have hmemvc : vc ∈ s.children := List.mem_of_find?_eq_some hfind0
  have hidv : vc.id = v := by simpa using List.find?_some hfind0
  have hkey : hdy_leaflet_size_allocate s a =
      mapChildren
        (foldedAllocateNone
          (gtk_widget_set_child_visible
            (foldedHideOthers (sizeAllocatePrepare { s with moveBinWindowRequest := b }) v)
            v true)
          v a)
        (fun c => { c with childVisible := c.visible }) := by
    simp only [hdy_leaflet_size_allocate]
    rw [hb, hT0, if_pos rfl, hTfold,
      saf_none_eq (sizeAllocatePrepare { s with moveBinWindowRequest := b }) v
        (prepChild vc) a hv hfindT hwid hgtk (le_of_eq hpos)]
  refine ⟨?_, ?_, ?_⟩
  · rw [hkey]
    simp only [mapChildren, foldedAllocateNone, gtk_widget_set_child_visible,
      foldedHideOthers, sizeAllocatePrepare, List.map_map]
    refine List.map_congr_left (fun c _ => ?_)
    dsimp only [Function.comp, prepChild]
    repeat' split
    all_goals rfl
  · rw [hkey]
    simp only [mapChildren, foldedAllocateNone, gtk_widget_set_child_visible,
      foldedHideOthers, sizeAllocatePrepare, List.map_map, List.mem_map]
    refine ⟨_, ⟨vc, hmemvc, rfl⟩, ?_⟩
    dsimp only [Function.comp, prepChild]
    repeat' split
    all_goals exact hidv
  · rw [hkey]
    simp only [mapChildren, foldedAllocateNone, gtk_widget_set_child_visible,
      foldedHideOthers, sizeAllocatePrepare, List.map_map]
    intro c hc
    obtain ⟨c0, hc0, rfl⟩ := List.mem_map.mp hc
    dsimp only [Function.comp, prepChild]
    repeat' split
    all_goals simp_all

/-- Witness for C4 at a concrete folded two-child state with child 0
visible: every hypothesis is checked by evaluation and the conclusion is the
theorem instance. -/
theorem hdy_leaflet_folded_single_visible_witness :
    (hdy_leaflet_fold_decision (sizeAllocatePrepare c4WitnessState) c4WitnessAlloc = true ∧
     c4WitnessState.folded = true ∧
     c4WitnessState.visibleChild = some 0 ∧
     find_child_info_for_widget c4WitnessState 0 = some (mkChild 0 true 100 100) ∧
     (mkChild 0 true 100 100).hasWidget = true ∧
     (mkChild 0 true 100 100).gtkVisible = true ∧
     c4WitnessState.modeTransition.currentPos = 0 ∧
     c4WitnessState.lastVisibleChild = none) ∧
    (((hdy_leaflet_size_allocate c4WitnessState c4WitnessAlloc).children.map
        (fun c => c.id) = c4WitnessState.children.map (fun c => c.id)) ∧
     (∃ c ∈ (hdy_leaflet_size_allocate c4WitnessState c4WitnessAlloc).children, c.id = 0) ∧
     (∀ c ∈ (hdy_leaflet_size_allocate c4WitnessState c4WitnessAlloc).children,
       (c.childVisible = true ↔ c.id = 0) ∧
       (c.id = 0 → c.alloc = ⟨0, 0, c4WitnessAlloc.width, c4WitnessAlloc.height⟩))) :=
  ⟨⟨by decide, by decide, by decide, by decide, by decide, by decide, by decide, by decide⟩,
   hdy_leaflet_folded_single_visible c4WitnessState c4WitnessAlloc 0
     (mkChild 0 true 100 100) (by decide) (by decide) (by decide) (by decide)
     (by decide) (by decide) (by decide) (by decide)⟩

lemma unfoldedMainLoop_row (boxH : Bool) (h0 pce : Int) (l : List HdyLeafletChildInfo) :
    ∀ (r : GtkAllocation),
      (∀ c ∈ l, c.visible = true) → (∀ c ∈ l, c.widgetExpandH = false) →
      (unfoldedMainLoop GtkOrientation.horizontal boxH h0 pce l r 0).1 =
        expectedRow boxH h0 r.y r.height l r.x := by
  induction l with
  | nil => intro r _ _; rfl
  | cons c t ih =>
    intro r hvis hexp
    simp only [unfoldedMainLoop, expectedRow]
    rw [if_neg (by simp [hvis c (by simp)])]
    cases boxH with
    | true =>
      simp only [if_true, gt_iff_lt, lt_irrefl, if_false]
      rw [ih _ (fun x hx => hvis x (by simp [hx])) (fun x hx => hexp x (by simp [hx]))]
    | false =>
      have hce : computeExpand GtkOrientation.horizontal c = false := by
        simp [computeExpand, hexp c (by simp)]
      simp only [hce, Bool.false_eq_true, if_false, gt_iff_lt, lt_irrefl]
      rw [ih _ (fun x hx => hvis x (by simp [hx])) (fun x hx => hexp x (by simp [hx]))]

lemma expectedRow_x (boxH : Bool) (h0 y hgt : Int) (l : List HdyLeafletChildInfo) :
    ∀ x : Int, (expectedRow boxH h0 y hgt l x).map (fun c => c.alloc.x) =
      prefixSumsFrom x ((expectedRow boxH h0 y hgt l x).map (fun c => c.alloc.width)) := by
  induction l with
  | nil => intro x; rfl
  | cons c t ih =>
    intro x
    simp only [expectedRow, List.map_cons, prefixSumsFrom]
    rw [← ih]

lemma expectedRow_yh (boxH : Bool) (h0 y hgt : Int) (l : List HdyLeafletChildInfo) :
    ∀ x : Int, ∀ c ∈ expectedRow boxH h0 y hgt l x, c.alloc.y = y ∧ c.alloc.height = hgt := by
  induction l with
  | nil => intro x c hc; cases hc
  | cons d t ih =>
    intro x c hc
    rcases List.mem_cons.mp hc with rfl | hc
    · exact ⟨rfl, rfl⟩
    · exact ih _ c hc

lemma expectedRow_width_homog (h0 y hgt : Int) (l : List HdyLeafletChildInfo) :
    ∀ x : Int, (expectedRow true h0 y hgt l x).map (fun c => c.alloc.width) =
      List.replicate l.length h0 := by
  induction l with
  | nil => intro x; rfl
  | cons c t ih =>
    intro x
    simp only [expectedRow, List.map_cons, List.length_cons, List.replicate_succ, if_true]
    rw [ih]

lemma expectedRow_ids (boxH : Bool) (h0 y hgt : Int) (l : List HdyLeafletChildInfo) :
    ∀ x : Int, (expectedRow boxH h0 y hgt l x).map (fun c => c.id) =
      l.map (fun c => c.id) := by
  induction l with
  | nil => intro x; rfl
  | cons c t ih =>
    intro x
    simp only [expectedRow, List.map_cons]
    rw [ih]

lemma countVisible (l : List HdyLeafletChildInfo) (hvis : ∀ c ∈ l, c.visible = true) :
    ∀ i : Int, l.foldl (fun n c => if c.visible then n + 1 else n) i = i + l.length := by
  induction l with
  | nil => intro i; simp
  | cons c t ih =>
    intro i
    simp only [List.foldl_cons, List.length_cons]
    rw [if_pos (hvis c (by simp))]
    rw [ih (fun x hx => hvis x (by simp [hx]))]
    push_cast
    omega

lemma applyChildUpdates_cons_skip (d : HdyLeafletChildInfo)
    (u t : List HdyLeafletChildInfo) (hd : ∀ c ∈ t, c.id ≠ d.id) :
    applyChildUpdates (d :: u) t = applyChildUpdates u t := by
  simp only [applyChildUpdates]
  refine List.map_congr_left (fun c hc => ?_)
  rw [List.find?_cons_of_neg]
  simp [Ne.symm (hd c hc)]

lemma applyChildUpdates_eq_of_ids (m : List HdyLeafletChildInfo) :
    ∀ l : List HdyLeafletChildInfo,
      m.map (fun c => c.id) = l.map (fun c => c.id) →
      (l.map (fun c => c.id)).Nodup →
      applyChildUpdates m l = m := by
  induction m with
  | nil =>
    intro l hid _
    have : l = [] := by
      cases l with
      | nil => rfl
      | cons c t => simp at hid
    subst this
    rfl
  | cons d u ih =>
    intro l hid hnd
    cases l with
    | nil => simp at hid
    | cons c t =>
      simp only [List.map_cons, List.cons.injEq] at hid
      obtain ⟨hdc, hut⟩ := hid
      simp only [applyChildUpdates, List.map_cons]
      rw [List.find?_cons_of_pos _ (by simp [hdc])]
      simp only [Option.getD_some]
      have hskip : ∀ e ∈ t, e.id ≠ d.id := by
        intro e he hed
        simp only [List.map_cons, List.nodup_cons] at hnd
        exact hnd.1 (by rw [← hdc, ← hed]; exact List.mem_map_of_mem _ he)
      have h2 : applyChildUpdates (d :: u) t = applyChildUpdates u t :=
        applyChildUpdates_cons_skip d u t hskip
      have h3 : applyChildUpdates u t = u := by
        refine ih t hut ?_
        simp only [List.map_cons, List.nodup_cons] at hnd
        exact hnd.2
      exact congrArg (fun l => d :: l) (h2.trans h3)

lemma unfoldedStoreDistances_children (t : HdyLeaflet) (vc : HdyLeafletChildInfo)
    (a : GtkAllocation) : (unfoldedStoreDistances t vc a).children = t.children := by
  simp only [unfoldedStoreDistances]
  split <;> rfl

lemma unfoldedStartPad_one (t : HdyLeaflet) (vc : HdyLeafletChildInfo)
    (hpos : t.modeTransition.currentPos = 1) : unfoldedStartPad t vc = 0 := by
  simp only [unfoldedStartPad, hpos]
  split <;> simp [truncToInt, Int.zero_tdiv]

lemma unfoldedEndPad_one (t : HdyLeaflet) (vc : HdyLeafletChildInfo) (a : GtkAllocation)
    (hpos : t.modeTransition.currentPos = 1) : unfoldedEndPad t vc a = 0 := by
  simp only [unfoldedEndPad, hpos]
  split <;> simp [truncToInt, Int.zero_tdiv]

lemma shiftStart_allocs (t : HdyLeaflet) (vid : Nat) :
    (unfoldedShiftStart t vid 0).children.map (fun c => c.alloc) =
      t.children.map (fun c => c.alloc) := by
  simp only [unfoldedShiftStart, mapChildren]
  split
  · rfl
  · simp only [List.map_map]
    refine List.map_congr_left (fun c _ => ?_)
    dsimp only [Function.comp]
    split
    · split <;> (cases hc : c.alloc; simp)
    · rfl

lemma shiftEnd_allocs (t : HdyLeaflet) (vid : Nat) :
    (unfoldedShiftEnd t vid 0).children.map (fun c => c.alloc) =
      t.children.map (fun c => c.alloc) := by
  simp only [unfoldedShiftEnd, mapChildren]
  split
  · rfl
  · simp only [List.map_map]
    refine List.map_congr_left (fun c _ => ?_)
    dsimp only [Function.comp]
    split
    · split <;> (cases hc : c.alloc; simp)
    · rfl

lemma adjustVisible_allocs (t : HdyLeaflet) (vid : Nat) :
    (unfoldedAdjustVisible t vid 0 0).children.map (fun c => c.alloc) =
      t.children.map (fun c => c.alloc) := by
  simp only [unfoldedAdjustVisible, mapChildren, List.map_map]
  refine List.map_congr_left (fun c _ => ?_)
  dsimp only [Function.comp]
  split
  · split <;> (cases hc : c.alloc; simp)
  · rfl

lemma unfoldedApplyAnimations_allocs (t : HdyLeaflet) (vid : Nat) (a : GtkAllocation)
    (hpos : t.modeTransition.currentPos = 1) :
    (unfoldedApplyAnimations t vid a).children.map (fun c => c.alloc) =
      t.children.map (fun c => c.alloc) := by
  simp only [unfoldedApplyAnimations]
  split
  · rfl
  · rename_i vc hvc
    rw [unfoldedStartPad_one t vc hpos, unfoldedEndPad_one t vc a hpos,
      adjustVisible_allocs, shiftEnd_allocs, shiftStart_allocs,
      unfoldedStoreDistances_children]

lemma countExpandZero (l : List HdyLeafletChildInfo)
    (hexp : ∀ c ∈ l, c.widgetExpandH = false) :
    l.foldl (fun n c =>
      if c.visible = true ∧ computeExpand GtkOrientation.horizontal c = true
      then n + 1 else n) (0:Int) = 0 := by
  induction l with
  | nil => rfl
  | cons c t ih =>
    simp only [List.foldl_cons]
    rw [if_neg (by simp [computeExpand, hexp c (by simp)])]
    exact ih (fun x hx => hexp x (by simp [hx]))

lemma visPass_visible (s : HdyLeaflet)
    (hvis : ∀ c ∈ s.children, c.hasWidget = true ∧ c.gtkVisible = true) :
    ∀ c ∈ (unfoldedVisibilityPass s).children, c.visible = true := by
  intro c hc
  simp only [unfoldedVisibilityPass, mapChildren] at hc
  obtain ⟨c0, h0, rfl⟩ := List.mem_map.mp hc
  rw [if_pos]
  exact ⟨(hvis c0 h0).1, (hvis c0 h0).2⟩

lemma visPass_noexpand (s : HdyLeaflet)
    (hexp : ∀ c ∈ s.children, c.widgetExpandH = false) :
    ∀ c ∈ (unfoldedVisibilityPass s).children, c.widgetExpandH = false := by
  intro c hc
  simp only [unfoldedVisibilityPass, mapChildren] at hc
  obtain ⟨c0, h0, rfl⟩ := List.mem_map.mp hc
  split <;> exact hexp c0 h0

lemma visPass_ids (s : HdyLeaflet) :
    (unfoldedVisibilityPass s).children.map (fun c => c.id) =
      s.children.map (fun c => c.id) := by
  simp only [unfoldedVisibilityPass, mapChildren, List.map_map]
  refine List.map_congr_left (fun c _ => ?_)
  dsimp only [Function.comp]
  split <;> rfl

lemma sau_homog_allocs (s : HdyLeaflet) (a : GtkAllocation) (v : Nat)
    (hor : s.orientation = GtkOrientation.horizontal)
    (hltr : s.textDirection = GtkTextDirection.ltr)
    (hpos : s.modeTransition.currentPos = 1)
    (hv : s.visibleChild = some v)
    (hvis : ∀ c ∈ s.children, c.hasWidget = true ∧ c.gtkVisible = true)
    (hexp : ∀ c ∈ s.children, c.widgetExpandH = false)
    (hnd : (s.children.map (fun c => c.id)).Nodup)
    (hh : s.hhomogeneousUnfolded = true) :
    (hdy_leaflet_size_allocate_unfolded s a).children.map (fun c => c.alloc) =
      (expectedRow true (Int.tdiv a.width ((s.children.length : Int))) 0 a.height
        (unfoldedVisibilityPass s).children 0).map (fun c => c.alloc) := by
  have hvis1 := visPass_visible s hvis
  have hexp1 := visPass_noexpand s hexp
  have hdir : get_directed_children (unfoldedVisibilityPass s) =
      (unfoldedVisibilityPass s).children := by
    simp [get_directed_children, unfoldedVisibilityPass, mapChildren, hor, hltr]
  have hb : unfoldedBoxHomogeneous s = true := by
    simp [unfoldedBoxHomogeneous, hor, hh]
  have hnd1 : ((unfoldedVisibilityPass s).children.map (fun c => c.id)).Nodup := by
    rw [visPass_ids]
    exact hnd
  have hlen : (unfoldedVisibilityPass s).children.length = s.children.length := by
    simp [unfoldedVisibilityPass, mapChildren]
  simp only [hdy_leaflet_size_allocate_unfolded, hv]
  rw [hdir, hb, hor]
  rw [countVisible _ hvis1]
  simp only [zero_add, if_true, allocMainSize, hlen]
  rw [unfoldedApplyAnimations_allocs]
  · split
    · rename_i hm
      rw [sub_sub_cancel, Int.tmod_self]
      rw [unfoldedMainLoop_row true _ _ _ _ hvis1 hexp1]
      simp only [commitDirected]
      rw [applyChildUpdates_eq_of_ids _ _ (expectedRow_ids _ _ _ _ _ _) hnd1]
    · rename_i hm
      rw [unfoldedMainLoop_row true _ _ _ _ hvis1 hexp1]
      simp only [commitDirected]
      rw [applyChildUpdates_eq_of_ids _ _ (expectedRow_ids _ _ _ _ _ _) hnd1]
  · exact hpos

lemma sau_inhomog_allocs (s : HdyLeaflet) (a : GtkAllocation) (v : Nat)
    (hor : s.orientation = GtkOrientation.horizontal)
    (hltr : s.textDirection = GtkTextDirection.ltr)
    (hpos : s.modeTransition.currentPos = 1)
    (hv : s.visibleChild = some v)
    (hvis : ∀ c ∈ s.children, c.hasWidget = true ∧ c.gtkVisible = true)
    (hexp : ∀ c ∈ s.children, c.widgetExpandH = false)
    (hnd : (s.children.map (fun c => c.id)).Nodup)
    (hh : s.hhomogeneousUnfolded = false) :
    (hdy_leaflet_size_allocate_unfolded s a).children.map (fun c => c.alloc) =
      (expectedRow false 0 0 a.height (unfoldedVisibilityPass s).children 0).map
        (fun c => c.alloc) := by
  have hvis1 := visPass_visible s hvis
  have hexp1 := visPass_noexpand s hexp
  have hdir : get_directed_children (unfoldedVisibilityPass s) =
      (unfoldedVisibilityPass s).children := by
    simp [get_directed_children, unfoldedVisibilityPass, mapChildren, hor, hltr]
  have hb : unfoldedBoxHomogeneous s = false := by
    simp [unfoldedBoxHomogeneous, hor, hh]
  have hnd1 : ((unfoldedVisibilityPass s).children.map (fun c => c.id)).Nodup := by
    rw [visPass_ids]
    exact hnd
  simp only [hdy_leaflet_size_allocate_unfolded, hv]
  rw [hdir, hb, hor]
  rw [countExpandZero _ hexp1]
  simp only [Bool.false_eq_true, if_false, gt_iff_lt, lt_irrefl]
  rw [unfoldedApplyAnimations_allocs]
  · rw [unfoldedMainLoop_row false _ _ _ _ hvis1 hexp1]
    simp only [commitDirected]
    rw [applyChildUpdates_eq_of_ids _ _ (expectedRow_ids _ _ _ _ _ _) hnd1]
  · exact hpos

lemma rowConclusions (final L : List HdyLeafletChildInfo) (bH : Bool) (h0 hgt : Int)
    (hA : final.map (fun c => c.alloc) =
      (expectedRow bH h0 0 hgt L 0).map (fun c => c.alloc)) :
    (final.map (fun c => c.alloc.x) =
      prefixSumsFrom 0 (final.map (fun c => c.alloc.width))) ∧
    (∀ r ∈ final.map (fun c => c.alloc), r.y = 0 ∧ r.height = hgt) ∧
    (final.map (fun c => c.alloc.width) =
      (expectedRow bH h0 0 hgt L 0).map (fun c => c.alloc.width)) := by
  have hx : final.map (fun c => c.alloc.x) =
      (expectedRow bH h0 0 hgt L 0).map (fun c => c.alloc.x) := by
    have h1 := congrArg (List.map (fun r : GtkAllocation => r.x)) hA
    simpa [List.map_map, Function.comp] using h1
  have hw : final.map (fun c => c.alloc.width) =
      (expectedRow bH h0 0 hgt L 0).map (fun c => c.alloc.width) := by
    have h1 := congrArg (List.map (fun r : GtkAllocation => r.width)) hA
    simpa [List.map_map, Function.comp] using h1
  refine ⟨?_, ?_, hw⟩
  · rw [hx, hw]
    exact expectedRow_x bH h0 0 hgt L 0
  · intro r hr
    rw [hA] at hr
    obtain ⟨c, hc, rfl⟩ := List.mem_map.mp hr
    exact expectedRow_yh bH h0 0 hgt L 0 c hc

/-- C5, amended: for an unfolded horizontal left-to-right leaflet at mode
position 1 whose children all have visible non-expanding widgets, size
allocation lays the children out side by side: each x coordinate is the sum
of the widths of the preceding children and every child spans the full
allocation height.  In the box-homogeneous case every child receives exactly
floor(W/n) pixels, so the widths sum to W minus (W mod n) rather than to W:
the leaflet, unlike a box, never hands out the floor(W/n)+1 remainders. -/
theorem hdy_leaflet_unfolded_layout (s : HdyLeaflet) (a : GtkAllocation) (v : Nat)
    (hor : s.orientation = GtkOrientation.horizontal)
    (hltr : s.textDirection = GtkTextDirection.ltr)
    (hpos : s.modeTransition.currentPos = 1)
    (hv : s.visibleChild = some v)
    (hvis : ∀ c ∈ s.children, c.hasWidget = true ∧ c.gtkVisible = true)
    (hexp : ∀ c ∈ s.children, c.widgetExpandH = false)
    (hnd : (s.children.map (fun c => c.id)).Nodup) :
    ((hdy_leaflet_size_allocate_unfolded s a).children.map (fun c => c.alloc.x) =
       prefixSumsFrom 0
         ((hdy_leaflet_size_allocate_unfolded s a).children.map (fun c => c.alloc.width))) ∧
    (∀ r ∈ (hdy_leaflet_size_allocate_unfolded s a).children.map (fun c => c.alloc),
       r.y = 0 ∧ r.height = a.height) ∧
    (s.hhomogeneousUnfolded = true →
      ((hdy_leaflet_size_allocate_unfolded s a).children.map (fun c => c.alloc.width) =
         List.replicate s.children.length
           (Int.tdiv a.width (s.children.length : Int))) ∧
      (((hdy_leaflet_size_allocate_unfolded s a).children.map
          (fun c => c.alloc.width)).sum =
         a.width - Int.tmod a.width (s.children.length : Int))) := by
  have hlen : (unfoldedVisibilityPass s).children.length = s.children.length := by
    simp [unfoldedVisibilityPass, mapChildren]
  by_cases hh : s.hhomogeneousUnfolded = true
  · have hA := sau_homog_allocs s a v hor hltr hpos hv hvis hexp hnd hh
    obtain ⟨c1, c2, c3⟩ := rowConclusions _ _ _ _ _ hA
    refine ⟨c1, c2, fun _ => ?_⟩
    have hrep := expectedRow_width_homog (Int.tdiv a.width (s.children.length : Int))
      0 a.height (unfoldedVisibilityPass s).children 0
    rw [hlen] at hrep
    rw [c3, hrep]
    refine ⟨rfl, ?_⟩
    rw [List.sum_replicate, nsmul_eq_mul]
    have hdm := Int.tdiv_add_tmod a.width (s.children.length : Int)
    linarith
  · have hhf : s.hhomogeneousUnfolded = false := by simpa using hh
    have hA := sau_inhomog_allocs s a v hor hltr hpos hv hvis hexp hnd hhf
    obtain ⟨c1, c2, c3⟩ := rowConclusions _ _ _ _ _ hA
    exact ⟨c1, c2, fun hcontra => absurd hcontra hh⟩

/-- Witness for the amended C5 statement at a concrete two-child
homogeneous leaflet of width eight. -/
theorem hdy_leaflet_unfolded_layout_witness :
    (c5WitnessState.orientation = GtkOrientation.horizontal ∧
     c5WitnessState.textDirection = GtkTextDirection.ltr ∧
     c5WitnessState.modeTransition.currentPos = 1 ∧
     c5WitnessState.visibleChild = some 0 ∧
     (∀ c ∈ c5WitnessState.children, c.hasWidget = true ∧ c.gtkVisible = true) ∧
     (∀ c ∈ c5WitnessState.children, c.widgetExpandH = false) ∧
     (c5WitnessState.children.map (fun c => c.id)).Nodup) ∧
    (((hdy_leaflet_size_allocate_unfolded c5WitnessState c5WitnessAlloc).children.map
        (fun c => c.alloc.x) =
       prefixSumsFrom 0
         ((hdy_leaflet_size_allocate_unfolded c5WitnessState c5WitnessAlloc).children.map
           (fun c => c.alloc.width))) ∧
     (∀ r ∈ (hdy_leaflet_size_allocate_unfolded c5WitnessState
         c5WitnessAlloc).children.map (fun c => c.alloc),
        r.y = 0 ∧ r.height = c5WitnessAlloc.height) ∧
     (c5WitnessState.hhomogeneousUnfolded = true →
       ((hdy_leaflet_size_allocate_unfolded c5WitnessState c5WitnessAlloc).children.map
           (fun c => c.alloc.width) =
          List.replicate c5WitnessState.children.length
            (Int.tdiv c5WitnessAlloc.width (c5WitnessState.children.length : Int))) ∧
       (((hdy_leaflet_size_allocate_unfolded c5WitnessState c5WitnessAlloc).children.map
           (fun c => c.alloc.width)).sum =
          c5WitnessAlloc.width -
            Int.tmod c5WitnessAlloc.width (c5WitnessState.children.length : Int)))) :=
  ⟨⟨by decide, by decide, by decide, by decide, by decide, by decide, by decide⟩,
   hdy_leaflet_unfolded_layout c5WitnessState c5WitnessAlloc 0 (by decide) (by decide)
     (by decide) (by decide) (by decide) (by decide) (by decide)⟩

/-- C5, counterexample to the box-distribution reading: three homogeneous
children in a width of ten each receive three pixels, so the widths sum to
nine, not to the allocated ten, and no child receives the floor-plus-one
remainder pixel a box would hand out. -/
theorem hdy_leaflet_unfolded_homogeneous_counterexample :
    c5CexAlloc.width = 10 ∧
    ((hdy_leaflet_size_allocate_unfolded c5CexState c5CexAlloc).children.map
        (fun c => c.alloc.width) = [3, 3, 3]) ∧
    (((hdy_leaflet_size_allocate_unfolded c5CexState c5CexAlloc).children.map
        (fun c => c.alloc.width)).sum ≠ c5CexAlloc.width) := by
  have hA := sau_homog_allocs c5CexState c5CexAlloc 0 (by decide) (by decide)
    (by decide) (by decide) (by decide) (by decide) (by decide) (by decide)
  obtain ⟨_, _, c3⟩ := rowConclusions _ _ _ _ _ hA
  rw [c3]
  refine ⟨by decide, by decide, by decide⟩
